import Mathlib

/-!
Verification of the PX4/pymavlink build script (`build.py`) of the
AVR-PX4-Firmware repository.

The script is shallowly embedded as follows.

* Filesystem paths are lists of path components; `os.path.join a b` with a
  relative component `b` is appending the component (`pjoin`).  The literal
  component `".."` stays literal, exactly as Python's join does not
  normalise it.
* Version tags stay `String`s and are compared with Lean's lexicographic
  string order, which matches Python's code-point lexicographic `<`/`>=`
  on strings.
* The mutable world is `St`: a set of existing directories, a set of
  existing files, and a trace of the external effects performed
  (`subprocess.check_call` / `check_output`, `shutil.rmtree`,
  `shutil.copyfile`, `shutil.copytree`, `touch_file`, `os.makedirs`).
* `subprocess.check_call` / `check_output` may fail (raise
  `CalledProcessError`); an `Oracle` decides, from the argument vector and
  working directory, whether the external command exits successfully.
  A raising call aborts the whole run: the functions return
  `Except St St`, where `.error s` is the state at the moment of the
  uncaught exception.  `sys.executable` is abstracted as the literal
  `"python"`.
* The output of `git remote show origin -n` in the PX4 checkout is a run
  parameter `remoteLines` (the `splitlines()` of the decoded output).
* The external tools' own writes are not modelled, except that a
  successful `git clone` is recorded as creating its target directory
  (the script itself relies on exactly that effect for its
  `os.path.isdir` re-checks).  `shutil.rmtree` removes the directory and
  everything below it; the call sites without `ignore_errors` only run it
  on existing trees, so failure on a missing tree is not modelled, but the
  `ignore_errors` flag is recorded in the trace.
* `THIS_DIR` and the content of the `.px4-version` file (`PX4_VERSION`,
  already `.strip()`ed) are parameters `td` and `pxv` of every
  definition, since the Python module computes them once at import time.
-/
namespace AVRBuild

/-- A filesystem path, as its list of components. -/
abbrev Path := List String

/-- Embeds `os.path.join p c` for a single relative component `c`. -/
def pjoin (p : Path) (c : String) : Path := p ++ [c]

/-- Lexicographic code-point comparison of character lists, the order
Python uses for `str < str`. -/
def strLtB : List Char → List Char → Bool
  | [], [] => false
  | [], _ :: _ => true
  | _ :: _, [] => false
  | a :: as, b :: bs =>
    if a < b then true else if b < a then false else strLtB as bs

/-- Python string comparison `a < b` (lexicographic on code points). -/
def verLt (a b : String) : Bool := strLtB a.data b.data

/-- Python string comparison `a >= b`: in Python's total string order this
is exactly the negation of `a < b`. -/
def verGe (a b : String) : Bool := !(strLtB a.data b.data)

/-- Embeds `DIST_DIR = os.path.join(THIS_DIR, "dist")` (build.py line 9). -/
def DIST_DIR (td : Path) : Path := pjoin td "dist"

/-- Embeds `BUILD_DIR = os.path.join(THIS_DIR, "build", PX4_VERSION)` (line 16). -/
def BUILD_DIR (td : Path) (pxv : String) : Path := td ++ ["build", pxv]

/-- Embeds `PX4_DIR = os.path.join(BUILD_DIR, "PX4-Autopilot")` (line 17). -/
def PX4_DIR (td : Path) (pxv : String) : Path :=
  pjoin (BUILD_DIR td pxv) "PX4-Autopilot"

/-- Embeds `PYMAVLINK_DIR` (lines 20-30): below the `v1.13.0` threshold it is a
top-level directory of the workspace, at or above it is nested inside the
PX4 checkout. -/
def PYMAVLINK_DIR (td : Path) (pxv : String) : Path :=
  if verLt pxv "v1.13.0" then
    pjoin (BUILD_DIR td pxv) "pymavlink"
  else
    PX4_DIR td pxv ++ ["src", "modules", "mavlink", "mavlink", "pymavlink"]

/-- One argument of an external command: a plain string, a path rendered
into the argument vector, or a path embedded after a literal piece (for
f-string arguments such as `--output={dir}`). -/
inductive Arg where
  | s : String → Arg
  | p : Path → Arg
  | sp : String → Path → Arg
deriving Repr, DecidableEq

/-- One recorded external effect of the script. -/
inductive Event where
  | call : List Arg → Option Path → Event
  | out : List Arg → Option Path → Event
  | rm : Path → Bool → Event
  | cpfile : Path → Path → Event
  | cptree : Path → Path → Event
  | touch : Path → Event
  | mkdirs : Path → Event
deriving Repr, DecidableEq

/-- The modelled filesystem: which directories and files exist. -/
structure FS where
  dirs : List Path
  files : List Path
deriving Repr, DecidableEq

/-- The run state: the filesystem plus the trace of effects so far. -/
structure St where
  fs : FS
  trace : List Event
deriving Repr, DecidableEq

/-- Decides whether an external command invocation exits successfully. -/
abbrev Oracle := List Arg → Option Path → Bool

/-- The oracle under which every external command succeeds. -/
def allOk : Oracle := fun _ _ => true

/-- Embeds `os.path.isdir`. -/
def isdir (s : St) (p : Path) : Bool := decide (p ∈ s.fs.dirs)

/-- Embeds `os.path.isfile`. -/
def isfile (s : St) (p : Path) : Bool := decide (p ∈ s.fs.files)

/-- Append one effect to the trace. -/
def emit (s : St) (e : Event) : St := { s with trace := s.trace ++ [e] }

/-- Record a file as existing. -/
def addFile (p : Path) (s : St) : St :=
  { s with fs := { s.fs with files := p :: s.fs.files } }

/-- Record a directory as existing. -/
def addDir (p : Path) (s : St) : St :=
  { s with fs := { s.fs with dirs := p :: s.fs.dirs } }

/-- Embeds `subprocess.check_call(args, cwd)`: raises iff the oracle refuses. -/
def checkCall (ok : Oracle) (args : List Arg) (cwd : Option Path)
    (s : St) : Except St St :=
  let s := emit s (.call args cwd)
  if ok args cwd then .ok s else .error s

/-- Embeds `subprocess.check_output(args, cwd)`: raises iff the oracle refuses;
the produced text is supplied separately as a run parameter. -/
def checkOutput (ok : Oracle) (args : List Arg) (cwd : Option Path)
    (s : St) : Except St St :=
  let s := emit s (.out args cwd)
  if ok args cwd then .ok s else .error s

/-- Embeds `touch_file` (build.py lines 40-45): creates the file with no content. -/
def touch_file (p : Path) (s : St) : St := addFile p (emit s (.touch p))

/-- Embeds `shutil.copyfile(src, dst)`. -/
def copyfile (src dst : Path) (s : St) : St :=
  addFile dst (emit s (.cpfile src dst))

/-- Embeds `shutil.copytree(src, dst)`. -/
def copytree (src dst : Path) (s : St) : St :=
  addDir dst (emit s (.cptree src dst))

/-- Embeds `shutil.rmtree(p)`: removes the directory and everything below it. -/
def rmtree (p : Path) (ignoreErrors : Bool) (s : St) : St :=
  { fs := { dirs := s.fs.dirs.filter (fun q => !(p.isPrefixOf q)),
            files := s.fs.files.filter (fun q => !(p.isPrefixOf q)) },
    trace := s.trace ++ [.rm p ignoreErrors] }

/-- Embeds `os.makedirs(p, exist_ok=True)`. -/
def makedirs (p : Path) (s : St) : St := addDir p (emit s (.mkdirs p))

/-- Embeds `sys.executable`, abstracted. -/
def PY : String := "python"

/-- Python `str.strip()` (whitespace from both ends), on the character
list of the string. -/
def pyStrip (l : List Char) : List Char :=
  ((l.dropWhile Char.isWhitespace).reverse.dropWhile Char.isWhitespace).reverse

/-- Python `str.startswith`, on character lists. -/
def pyStartsWith (l pre : List Char) : Bool := pre.isPrefixOf l

/-- Python `str.split(sep)` for a one-character separator, on character
lists: `"".split` gives `[""]`, and every separator occurrence opens a new
(possibly empty) field. -/
def pySplit (sep : Char) : List Char → List (List Char)
  | [] => [[]]
  | c :: rest =>
    match pySplit sep rest with
    | [] => [[c]]
    | g :: gs => if c = sep then [] :: g :: gs else (c :: g) :: gs

/-- The test `l.strip().startswith("refs")` of build.py line 99. -/
def refsLine (l : String) : Bool := pyStartsWith (pyStrip l.data) "refs".data

/-- The extraction `l.split("/")[-1]` of build.py line 93. -/
def lastComponent (l : String) : String := ⟨(pySplit '/' l.data).getLastD []⟩

/-- The local-version probe of `clone_px4` (lines 92-100): the first line
of the `git remote show origin -n` output whose stripped form starts with
`"refs"`, split at `"/"`, last component.  `none` when no line matches --
the Python `next(...)` then raises `StopIteration`. -/
def localVersionOf (lines : List String) : Option String :=
  (lines.filter refsLine).head?.map lastComponent

/-- Embeds `clone_pymavlink` (lines 62-79). -/
def clone_pymavlink (td : Path) (pxv : String) (ok : Oracle) (s : St) :
    Except St St :=
  if verGe pxv "v1.13.0" then pure s
  else if isdir s (PYMAVLINK_DIR td pxv) then
    checkCall ok [.s "git", .s "pull"] (some (PYMAVLINK_DIR td pxv)) s
  else do
    let s ← checkCall ok
      [.s "git", .s "clone", .s "https://github.com/ardupilot/pymavlink",
        .p (PYMAVLINK_DIR td pxv)] none s
    pure (addDir (PYMAVLINK_DIR td pxv) s)

/-- The marker-guarded PX4 patch block of `clone_px4` (lines 124-140). -/
def px4_patch_step (td : Path) (pxv : String) (ok : Oracle) (s : St) :
    Except St St :=
  let check_patch_file := pjoin (BUILD_DIR td pxv) ".px4-patched"
  if isfile s check_patch_file then pure s
  else do
    let s ← checkCall ok
      [.s "git", .s "apply", .s "--ignore-space-change",
        .s "--ignore-whitespace",
        .p (td ++ ["patches", "hil_gps_heading_" ++ pxv ++ ".patch"])]
      (some (PX4_DIR td pxv)) s
    pure (touch_file check_patch_file s)

/-- Embeds `clone_px4` (lines 82-140), with fuel for its self-recursion after a
destroyed workspace; fuel `0` is unreachable from any real call. -/
def clone_px4 (td : Path) (pxv : String) (ok : Oracle)
    (remoteLines : List String) : Nat → St → Except St St
  | 0, s => .error s
  | fuel + 1, s => do
    let s ←
      if isdir s (PX4_DIR td pxv) then do
        let s ← checkOutput ok
          [.s "git", .s "remote", .s "show", .s "origin", .s "-n"]
          (some (PX4_DIR td pxv)) s
        match localVersionOf remoteLines with
        | none => Except.error s
        | some local_version =>
          if local_version ≠ pxv then
            clone_px4 td pxv ok remoteLines fuel
              (rmtree (BUILD_DIR td pxv) false s)
          else pure s
      else do
        let s ← checkCall ok
          [.s "git", .s "clone", .s "https://github.com/PX4/PX4-Autopilot",
            .p (PX4_DIR td pxv), .s "--depth", .s "1", .s "--branch",
            .s pxv, .s "--recurse-submodules"] none s
        pure (addDir (PX4_DIR td pxv) s)
    px4_patch_step td pxv ok s

/-- Embeds `install_dependencies` (lines 143-160). -/
def install_dependencies (td : Path) (pxv : String) (ok : Oracle) (s : St) :
    Except St St := do
  let s ← checkCall ok [.s PY, .s "-m", .s "pip", .s "install",
    .s "--upgrade", .s "pip", .s "wheel"] none s
  checkCall ok [.s PY, .s "-m", .s "pip", .s "install", .s "-r",
    .p (pjoin (PYMAVLINK_DIR td pxv) "requirements.txt")] none s

/-- The marker-guarded pymavlink patch block of `build_pymavlink`
(lines 168-185). -/
def pymavlink_patch_step (td : Path) (pxv : String) (ok : Oracle) (s : St) :
    Except St St :=
  let check_patch_file := pjoin (BUILD_DIR td pxv) ".pymavlink-patched"
  if isfile s check_patch_file then pure s
  else do
    let s ← checkCall ok [.s "git", .s "reset", .s "--hard"]
      (some (PYMAVLINK_DIR td pxv)) s
    let s ← checkCall ok
      [.s "git", .s "apply", .s "--ignore-space-change",
        .s "--ignore-whitespace",
        .p (td ++ ["patches", "pymavlink_" ++ pxv ++ ".patch"])]
      (some (PYMAVLINK_DIR td pxv)) s
    pure (touch_file check_patch_file s)

/-- Embeds `os.listdir`: the names of the immediate children (files here; the
call site's directory holds the generated package files). -/
def listdir (s : St) (d : Path) : List String :=
  s.fs.files.filterMap
    (fun q =>
      if q.length = d.length + 1 ∧ d.isPrefixOf q = true then q.getLast?
      else none)

/-- The output-copying loop of `build_pymavlink` (lines 221-225). -/
def copy_outputs (td : Path) (srcdir : Path) (names : List String)
    (s : St) : St :=
  names.foldl
    (fun s filename =>
      copyfile (pjoin srcdir filename) (pjoin (DIST_DIR td) filename) s)
    s

/-- Embeds `build_pymavlink` (lines 163-242).  The `MAVLINK_DIALECT=bell`
environment entry of the `setup.py` call is not modelled. -/
def build_pymavlink (td : Path) (pxv : String) (ok : Oracle)
    (message_definitions_dir bell_xml_def : Path)
    (should_build_wireshark : Bool) (s : St) : Except St St := do
  let s ← pymavlink_patch_step td pxv ok s
  let s := rmtree (PYMAVLINK_DIR td pxv ++ ["message_definitions", "v1.0"])
    true s
  let s := copytree message_definitions_dir
    (PYMAVLINK_DIR td pxv ++ ["message_definitions", "v1.0"]) s
  let pymavlink_dist_dir := pjoin (PYMAVLINK_DIR td pxv) "dist"
  let s ← checkCall ok [.s PY, .s "setup.py", .s "sdist", .s "bdist_wheel"]
    (some (PYMAVLINK_DIR td pxv)) s
  let s := copy_outputs td pymavlink_dist_dir (listdir s pymavlink_dist_dir)
    s
  if should_build_wireshark then
    checkCall ok [.s PY, .s "-m", .s "pymavlink.tools.mavgen",
      .s "--lang=WLua", .s "--wire-protocol=2.0",
      .sp "--output=" (pjoin (DIST_DIR td) "bell-avr.lua"),
      .p bell_xml_def]
      (some (pjoin (PYMAVLINK_DIR td pxv) "..")) s
  else pure s

/-- Embeds `build_px4` (lines 245-259): per target, `make` then copy the image to
the output directory under its version-stamped name. -/
def build_px4 (td : Path) (pxv : String) (ok : Oracle)
    (targets : List String) (version : String) (s : St) : Except St St :=
  targets.foldlM
    (fun s target => do
      let s ← checkCall ok [.s "make", .s target, .s "-j"]
        (some (PX4_DIR td pxv)) s
      pure (copyfile
        (PX4_DIR td pxv ++ ["build", target, target ++ ".px4"])
        (pjoin (DIST_DIR td)
          (target ++ "." ++ pxv ++ "." ++ version ++ ".px4")) s))
    s

/-- Embeds `message_definitions_dir` of `main` (lines 281-300). -/
def message_definitions_dir (td : Path) (pxv : String) : Path :=
  if verLt pxv "v1.13.0" then
    PX4_DIR td pxv ++ ["mavlink", "include", "mavlink", "v2.0",
      "message_definitions"]
  else
    PX4_DIR td pxv ++ ["src", "modules", "mavlink", "mavlink",
      "message_definitions", "v1.0"]

/-- Embeds `generated_message_dir` of `main` (lines 290, 301). -/
def generated_message_dir (td : Path) (pxv : String) : Path :=
  if verLt pxv "v1.13.0" then
    message_definitions_dir td pxv ++ [".."]
  else
    message_definitions_dir td pxv ++ ["..", "..", ".."]

/-- Embeds `bell_xml_def` of `main` (line 303). -/
def bell_xml_def (td : Path) (pxv : String) : Path :=
  pjoin (message_definitions_dir td pxv) "bell.xml"

/-- The commit-marker path of `main` (line 306); note the source spells
the component `".mavlink-commited"`. -/
def mavlink_marker (td : Path) (pxv : String) : Path :=
  pjoin (BUILD_DIR td pxv) ".mavlink-commited"

/-- The marker-guarded message-injection-and-commit block of `main`
(lines 305-350). -/
def mavlink_commit_step (td : Path) (pxv : String) (ok : Oracle) (s : St) :
    Except St St :=
  if isfile s (mavlink_marker td pxv) then pure s
  else do
    let s := copyfile (pjoin td "bell.xml") (bell_xml_def td pxv) s
    let s ←
      if verLt pxv "v1.13.0" then
        checkCall ok [.s PY, .s "-m", .s "pymavlink.tools.mavgen",
          .s "--lang=C", .s "--wire-protocol=2.0",
          .sp "--output=" (generated_message_dir td pxv),
          .p (bell_xml_def td pxv)]
          (some (pjoin (PYMAVLINK_DIR td pxv) "..")) s
      else pure s
    let s ← checkCall ok [.s "git", .s "config", .s "user.email",
      .s "github-bot@nvaughn.email"] (some (PX4_DIR td pxv)) s
    let s ← checkCall ok [.s "git", .s "config", .s "user.name",
      .s "Github Actions"] (some (PX4_DIR td pxv)) s
    let s ← checkCall ok [.s "git", .s "add", .s "."]
      (some (PX4_DIR td pxv)) s
    let s ← checkCall ok [.s "git", .s "commit", .s "--no-gpg-sign",
      .s "-m", .s "Local commit to facilitate build"]
      (some (PX4_DIR td pxv)) s
    pure (touch_file (mavlink_marker td pxv) s)

/-- Embeds `main` (lines 262-356). -/
def main (td : Path) (pxv : String) (ok : Oracle)
    (remoteLines : List String) (fuel : Nat)
    (should_build_pymavlink should_build_px4 should_build_wireshark : Bool)
    (version : String) (targets : List String) (s : St) : Except St St := do
  let s := makedirs (DIST_DIR td) s
  let s ← clone_pymavlink td pxv ok s
  let s ← clone_px4 td pxv ok remoteLines fuel s
  let s ← install_dependencies td pxv ok s
  let s ← mavlink_commit_step td pxv ok s
  let s ←
    if should_build_pymavlink then
      build_pymavlink td pxv ok (message_definitions_dir td pxv)
        (bell_xml_def td pxv) should_build_wireshark s
    else pure s
  if should_build_px4 then build_px4 td pxv ok targets version s
  else pure s

/-- Recognises a `git commit` invocation in the trace. -/
def isGitCommit (e : Event) : Bool :=
  match e with
  | .call (Arg.s g :: Arg.s c :: _) _ => g == "git" && c == "commit"
  | _ => false

/-- Recognises a `git clone` invocation in the trace. -/
def isGitClone (e : Event) : Bool :=
  match e with
  | .call (Arg.s g :: Arg.s c :: _) _ => g == "git" && c == "clone"
  | _ => false

/-- Recognises a `git apply` invocation in the trace. -/
def isGitApply (e : Event) : Bool :=
  match e with
  | .call (Arg.s g :: Arg.s c :: _) _ => g == "git" && c == "apply"
  | _ => false

/-- Recognises a `shutil.rmtree` in the trace (the only destructive
filesystem operation of the script). -/
def isRm (e : Event) : Bool :=
  match e with
  | .rm _ _ => true
  | _ => false

/-- Recognises a `git remote show` version query in the trace. -/
def isRemoteQuery (e : Event) : Bool :=
  match e with
  | .out _ _ => true
  | _ => false

/-- Recognises a C-binding regeneration: a `mavgen` call whose fourth
argument is `--lang=C`. -/
def isMavgenC (e : Event) : Bool :=
  match e with
  | .call (_ :: _ :: _ :: Arg.s a :: _) _ => a == "--lang=C"
  | _ => false

/-- Recognises the copy of the custom message definition `bell.xml` out
of the tool's own directory. -/
def isBellCopy (td : Path) (e : Event) : Bool :=
  match e with
  | .cpfile src _ => src == pjoin td "bell.xml"
  | _ => false

def pullEvent (td : Path) (pxv : String) : Event :=
  .call [.s "git", .s "pull"] (some (PYMAVLINK_DIR td pxv))

def remoteQueryEvent (td : Path) (pxv : String) : Event :=
  .out [.s "git", .s "remote", .s "show", .s "origin", .s "-n"]
    (some (PX4_DIR td pxv))

def px4PatchMarker (td : Path) (pxv : String) : Path :=
  pjoin (BUILD_DIR td pxv) ".px4-patched"

def px4ApplyEvent (td : Path) (pxv : String) : Event :=
  .call [.s "git", .s "apply", .s "--ignore-space-change",
    .s "--ignore-whitespace",
    .p (td ++ ["patches", "hil_gps_heading_" ++ pxv ++ ".patch"])]
    (some (PX4_DIR td pxv))

def px4CloneEvent (td : Path) (pxv : String) : Event :=
  .call [.s "git", .s "clone", .s "https://github.com/PX4/PX4-Autopilot",
    .p (PX4_DIR td pxv), .s "--depth", .s "1", .s "--branch", .s pxv,
    .s "--recurse-submodules"] none

def pymavlinkPatchMarker (td : Path) (pxv : String) : Path :=
  pjoin (BUILD_DIR td pxv) ".pymavlink-patched"

def pymavlinkResetEvent (td : Path) (pxv : String) : Event :=
  .call [.s "git", .s "reset", .s "--hard"] (some (PYMAVLINK_DIR td pxv))

def pymavlinkApplyEvent (td : Path) (pxv : String) : Event :=
  .call [.s "git", .s "apply", .s "--ignore-space-change",
    .s "--ignore-whitespace",
    .p (td ++ ["patches", "pymavlink_" ++ pxv ++ ".patch"])]
    (some (PYMAVLINK_DIR td pxv))

def bellCopyEvent (td : Path) (pxv : String) : Event :=
  .cpfile (pjoin td "bell.xml") (bell_xml_def td pxv)

def mavgenCEvent (td : Path) (pxv : String) : Event :=
  .call [.s PY, .s "-m", .s "pymavlink.tools.mavgen", .s "--lang=C",
    .s "--wire-protocol=2.0",
    .sp "--output=" (generated_message_dir td pxv),
    .p (bell_xml_def td pxv)]
    (some (pjoin (PYMAVLINK_DIR td pxv) ".."))

def gitEmailEvent (td : Path) (pxv : String) : Event :=
  .call [.s "git", .s "config", .s "user.email",
    .s "github-bot@nvaughn.email"] (some (PX4_DIR td pxv))

def gitNameEvent (td : Path) (pxv : String) : Event :=
  .call [.s "git", .s "config", .s "user.name", .s "Github Actions"]
    (some (PX4_DIR td pxv))

def gitAddEvent (td : Path) (pxv : String) : Event :=
  .call [.s "git", .s "add", .s "."] (some (PX4_DIR td pxv))

def gitCommitEvent (td : Path) (pxv : String) : Event :=
  .call [.s "git", .s "commit", .s "--no-gpg-sign", .s "-m",
    .s "Local commit to facilitate build"] (some (PX4_DIR td pxv))

def makeEvent (td : Path) (pxv : String) (t : String) : Event :=
  .call [.s "make", .s t, .s "-j"] (some (PX4_DIR td pxv))

def artifactSrc (td : Path) (pxv : String) (t : String) : Path :=
  PX4_DIR td pxv ++ ["build", t, t ++ ".px4"]

def artifactDst (td : Path) (pxv version : String) (t : String) : Path :=
  pjoin (DIST_DIR td) (t ++ "." ++ pxv ++ "." ++ version ++ ".px4")

def v10dir (td : Path) (pxv : String) : Path :=
  PYMAVLINK_DIR td pxv ++ ["message_definitions", "v1.0"]

def setupEvent (td : Path) (pxv : String) : Event :=
  .call [.s PY, .s "setup.py", .s "sdist", .s "bdist_wheel"]
    (some (PYMAVLINK_DIR td pxv))

def wiresharkEvent (td : Path) (pxv : String) (bx : Path) : Event :=
  .call [.s PY, .s "-m", .s "pymavlink.tools.mavgen", .s "--lang=WLua",
    .s "--wire-protocol=2.0",
    .sp "--output=" (pjoin (DIST_DIR td) "bell-avr.lua"), .p bx]
    (some (pjoin (PYMAVLINK_DIR td pxv) ".."))

def distCopyEvent (td : Path) (pxv : String) (f : String) : Event :=
  .cpfile (pjoin (pjoin (PYMAVLINK_DIR td pxv) "dist") f)
    (pjoin (DIST_DIR td) f)

/-- Trace extension adds no commit, no bell.xml copy, no C regeneration. -/
def TraceQuiet (td : Path) (s s' : St) : Prop :=
  s'.trace.countP isGitCommit = s.trace.countP isGitCommit ∧
  s'.trace.countP (isBellCopy td) = s.trace.countP (isBellCopy td) ∧
  s'.trace.countP isMavgenC = s.trace.countP isMavgenC

/-- The commit marker's presence is unchanged between two states. -/
def MarkerStable (td : Path) (pxv : String) (s s' : St) : Prop :=
  (mavlink_marker td pxv ∈ s'.fs.files ↔
    mavlink_marker td pxv ∈ s.fs.files)

def commitEvents (td : Path) (pxv : String) : List Event :=
  bellCopyEvent td pxv ::
    ((if verLt pxv "v1.13.0" = true then [mavgenCEvent td pxv] else []) ++
      [gitEmailEvent td pxv, gitNameEvent td pxv, gitAddEvent td pxv,
        gitCommitEvent td pxv])

instance : DecidableEq (Except St St) := fun a b =>
  match a, b with
  | .ok a, .ok b =>
    if h : a = b then isTrue (by rw [h]) else isFalse (by simp [h])
  | .error a, .error b =>
    if h : a = b then isTrue (by rw [h]) else isFalse (by simp [h])
  | .ok _, .error _ => isFalse (by simp)
  | .error _, .ok _ => isFalse (by simp)

def wEmpty : St := ⟨⟨[], []⟩, []⟩

def w1St : St := ⟨⟨[["T", "build", "v1.12.0", "PX4-Autopilot"]],
  [["T", "build", "v1.12.0", ".px4-patched"]]⟩, []⟩

def w1lines : List String := ["  refs/heads/v1.11.0"]

def w1Res : St :=
  (clone_px4 ["T"] "v1.12.0" allOk w1lines 2 w1St).toOption.getD wEmpty

def w2St : St := ⟨⟨[], [["T", "build", "v1", ".px4-patched"],
  ["T", "build", "v1", ".pymavlink-patched"]]⟩, []⟩

def w3lines : List String := ["  refs/heads/v1.13.0"]

def w3s1 : St :=
  (main ["T"] "v1.13.0" allOk w3lines 1 false false false "x" []
    wEmpty).toOption.getD wEmpty

def w3s2 : St :=
  (main ["T"] "v1.13.0" allOk w3lines 1 false false false "x" []
    w3s1).toOption.getD wEmpty

def okFail : Oracle := fun _ _ => false

def w5err : St :=
  match px4_patch_step ["T"] "v1" okFail wEmpty with
  | .error s => s
  | .ok s => s

def w6St : St := ⟨⟨[["T", "build", "v1.12.0", "pymavlink"]], []⟩, []⟩

def w9lines : List String := ["Fetch URL: https://example",
  "no version reference lines here"]

def w8s : St :=
  (build_px4 ["T"] "v1" allOk ["a", "b"] "x" wEmpty).toOption.getD wEmpty

def w10file : Path := v10dir ["T"] "v1" ++ ["old.xml"]

def w10St : St := ⟨⟨[], [w10file]⟩, []⟩

def w10s : St :=
  (build_pymavlink ["T"] "v1" allOk ["M"] ["B"] false
    w10St).toOption.getD wEmpty

/-! ## Path lemmas -/
theorem isPrefixOf_self_append (p r : Path) :
    p.isPrefixOf (p ++ r) = true := by
  induction p with
  | nil => simp [List.isPrefixOf]
  | cons h t ih => simp [List.isPrefixOf, ih]

theorem isPrefixOf_append_cancel (a x y : Path) :
    (a ++ x).isPrefixOf (a ++ y) = x.isPrefixOf y := by
  induction a with
  | nil => simp
  | cons h t ih => simp [List.isPrefixOf, ih]

/-- C4: layout resolution is a pure two-branch function of the version
string under lexicographic comparison with `"v1.13.0"`.  Below the
threshold the codec generator is a top-level workspace directory and
`clone_pymavlink` clones or updates it; at or above the threshold the
path nests inside the firmware checkout and `clone_pymavlink` returns
its input state unchanged. -/
theorem layout_and_sync_threshold (td : Path) (pxv : String) (s : St) :
    (verLt pxv "v1.13.0" = true →
      PYMAVLINK_DIR td pxv = pjoin (BUILD_DIR td pxv) "pymavlink" ∧
      clone_pymavlink td pxv allOk s =
        (if isdir s (PYMAVLINK_DIR td pxv) then
          Except.ok (emit s (.call [.s "git", .s "pull"]
            (some (PYMAVLINK_DIR td pxv))))
        else
          Except.ok (addDir (PYMAVLINK_DIR td pxv)
            (emit s (.call [.s "git", .s "clone",
              .s "https://github.com/ardupilot/pymavlink",
              .p (PYMAVLINK_DIR td pxv)] none))))) ∧
    (verLt pxv "v1.13.0" = false →
      PYMAVLINK_DIR td pxv =
        PX4_DIR td pxv ++ ["src", "modules", "mavlink", "mavlink",
          "pymavlink"] ∧
      clone_pymavlink td pxv allOk s = Except.ok s) := by
  constructor
  · intro h
    have hge : verGe pxv "v1.13.0" = false := by
      simp [verGe, verLt] at h ⊢
      exact h
    refine ⟨by simp [PYMAVLINK_DIR, h], ?_⟩
    unfold clone_pymavlink
    rw [hge]
    simp only [Bool.false_eq_true, if_false]
    split <;> simp [checkCall, allOk, bind, Except.bind, pure, Except.pure]
  · intro h
    have hge : verGe pxv "v1.13.0" = true := by
      simp [verGe, verLt] at h ⊢
      exact h
    refine ⟨by simp [PYMAVLINK_DIR, h], ?_⟩
    unfold clone_pymavlink
    rw [hge]
    simp [pure, Except.pure]

/-- C6: when the codec-generator checkout exists (below the threshold),
`clone_pymavlink` only performs a `git pull` in place: the filesystem is
untouched and the single recorded event is neither a removal, nor a
clone, nor a version query. -/
theorem pymavlink_update_in_place (td : Path) (pxv : String) (s : St)
    (h1 : verLt pxv "v1.13.0" = true)
    (h2 : isdir s (PYMAVLINK_DIR td pxv) = true) :
    clone_pymavlink td pxv allOk s = Except.ok (emit s (pullEvent td pxv)) ∧
    (emit s (pullEvent td pxv)).fs = s.fs ∧
    [pullEvent td pxv].countP isRm = 0 ∧
    [pullEvent td pxv].countP isGitClone = 0 ∧
    [pullEvent td pxv].countP isRemoteQuery = 0 := by
  have hge : verGe pxv "v1.13.0" = false := by
    simp [verGe, verLt] at h1 ⊢
    exact h1
  refine ⟨?_, rfl, ?_, ?_, ?_⟩
  · unfold clone_pymavlink
    rw [hge]
    simp [h2, checkCall, allOk, pullEvent]
  all_goals simp [List.countP_cons, List.countP_nil, isRm, isGitClone,
    isRemoteQuery, pullEvent]

theorem head?_filter_eq_find? {α : Type} (p : α → Bool) (l : List α) :
    (l.filter p).head? = l.find? p := by
  induction l with
  | nil => rfl
  | cons a t ih =>
    by_cases h : p a <;> simp [List.filter_cons, List.find?_cons, h, ih]

/-- C9: the local-version probe takes the first output line whose
stripped form starts with `refs` and splits off its last `/`-separated
component; when no line matches, `clone_px4` raises right after the
version query (the Python `next` raises `StopIteration`) instead of
handling the condition. -/
theorem local_version_probe (td : Path) (pxv : String)
    (lines : List String) (n : Nat) (s : St)
    (h1 : isdir s (PX4_DIR td pxv) = true)
    (h2 : localVersionOf lines = none) :
    localVersionOf lines = (lines.find? refsLine).map lastComponent ∧
    clone_px4 td pxv allOk lines (n + 1) s =
      Except.error (emit s (remoteQueryEvent td pxv)) := by
  constructor
  · unfold localVersionOf
    rw [head?_filter_eq_find?]
  · simp [clone_px4, h1, h2, checkOutput, allOk, bind, Except.bind,
      remoteQueryEvent]

theorem px4_patch_step_present (td : Path) (pxv : String) (ok : Oracle)
    (s : St) (h : isfile s (px4PatchMarker td pxv) = true) :
    px4_patch_step td pxv ok s = Except.ok s := by
  simp [px4_patch_step, px4PatchMarker] at h ⊢
  simp [h, pure, Except.pure]

theorem px4_patch_step_absent (td : Path) (pxv : String) (s : St)
    (h : isfile s (px4PatchMarker td pxv) = false) :
    px4_patch_step td pxv allOk s =
      Except.ok (touch_file (px4PatchMarker td pxv)
        (emit s (px4ApplyEvent td pxv))) := by
  simp [px4_patch_step, px4PatchMarker] at h ⊢
  simp [h, checkCall, allOk, bind, Except.bind, pure, Except.pure,
    px4ApplyEvent, px4PatchMarker]

theorem isfile_emit (s : St) (e : Event) (q : Path) :
    isfile (emit s e) q = isfile s q := rfl

theorem isdir_emit (s : St) (e : Event) (q : Path) :
    isdir (emit s e) q = isdir s q := rfl

theorem isfile_addDir (p : Path) (s : St) (q : Path) :
    isfile (addDir p s) q = isfile s q := rfl

theorem isdir_rmtree (p : Path) (b : Bool) (s : St) (q : Path) :
    isdir (rmtree p b s) q = (!(p.isPrefixOf q) && isdir s q) := by
  simp only [isdir, rmtree, List.mem_filter]
  cases hp : p.isPrefixOf q <;> simp [hp]

theorem isfile_rmtree (p : Path) (b : Bool) (s : St) (q : Path) :
    isfile (rmtree p b s) q = (!(p.isPrefixOf q) && isfile s q) := by
  simp only [isfile, rmtree, List.mem_filter]
  cases hp : p.isPrefixOf q <;> simp [hp]

theorem isPrefixOf_pjoin (p : Path) (c : String) :
    p.isPrefixOf (pjoin p c) = true :=
  isPrefixOf_self_append p [c]

theorem build_prefix_px4dir (td : Path) (pxv : String) :
    (BUILD_DIR td pxv).isPrefixOf (PX4_DIR td pxv) = true :=
  isPrefixOf_self_append (BUILD_DIR td pxv) ["PX4-Autopilot"]

theorem build_prefix_px4marker (td : Path) (pxv : String) :
    (BUILD_DIR td pxv).isPrefixOf (px4PatchMarker td pxv) = true :=
  isPrefixOf_self_append (BUILD_DIR td pxv) [".px4-patched"]

/-- C1: when the PX4 checkout exists and its recorded remote default
reference names a version `A` different from the requested `pxv`,
`clone_px4` destroys the whole version workspace `BUILD_DIR` (its marker
files included, by the prefix filter) and performs a fresh shallow,
tag-pinned, recursive clone declaring `pxv`; when the recorded version
equals `pxv`, no `rmtree` and no `git clone` occur. -/
theorem mismatch_destroys_workspace (td : Path) (pxv A : String)
    (lines : List String) (n : Nat) (s : St)
    (h1 : isdir s (PX4_DIR td pxv) = true)
    (h2 : localVersionOf lines = some A) :
    (A ≠ pxv →
      clone_px4 td pxv allOk lines (n + 2) s =
        Except.ok
          { fs := { dirs := PX4_DIR td pxv ::
                      s.fs.dirs.filter
                        (fun q => !((BUILD_DIR td pxv).isPrefixOf q)),
                    files := px4PatchMarker td pxv ::
                      s.fs.files.filter
                        (fun q => !((BUILD_DIR td pxv).isPrefixOf q)) },
            trace := s.trace ++ [remoteQueryEvent td pxv,
              .rm (BUILD_DIR td pxv) false, px4CloneEvent td pxv,
              px4ApplyEvent td pxv, .touch (px4PatchMarker td pxv)] }) ∧
    (A = pxv →
      ∃ s' l, clone_px4 td pxv allOk lines (n + 1) s = Except.ok s' ∧
        s'.trace = s.trace ++ l ∧
        l.countP isRm = 0 ∧ l.countP isGitClone = 0) := by
  constructor
  · intro hA
    simp only [clone_px4, h1, h2, checkOutput, checkCall, allOk, bind,
      Except.bind, hA, ne_eq, not_false_iff, if_true, if_false,
      px4_patch_step, isdir_rmtree, isfile_rmtree, isfile_emit,
      isdir_emit, isfile_addDir, build_prefix_px4dir, isPrefixOf_pjoin,
      Bool.not_true, Bool.false_and, Bool.false_eq_true, ite_false,
      ite_true, pure, Except.pure]
    simp [remoteQueryEvent, px4CloneEvent, px4ApplyEvent, px4PatchMarker,
      rmtree, emit, addDir, touch_file, addFile, isfile, List.mem_cons]
  · intro hA
    have e : clone_px4 td pxv allOk lines (n + 1) s =
        px4_patch_step td pxv allOk (emit s (remoteQueryEvent td pxv)) := by
      simp [clone_px4, h1, h2, hA, checkOutput, allOk, bind, Except.bind,
        pure, Except.pure, remoteQueryEvent]
    by_cases hm : isfile s (px4PatchMarker td pxv) = true
    · refine ⟨emit s (remoteQueryEvent td pxv), [remoteQueryEvent td pxv],
        ?_, rfl, ?_, ?_⟩
      · rw [e]
        exact px4_patch_step_present td pxv allOk _
          (by rw [isfile_emit]; exact hm)
      all_goals
        simp [List.countP_cons, List.countP_nil, isRm, isGitClone,
          remoteQueryEvent]
    · have hm' : isfile s (px4PatchMarker td pxv) = false := by
        simpa using hm
      refine ⟨touch_file (px4PatchMarker td pxv)
          (emit (emit s (remoteQueryEvent td pxv)) (px4ApplyEvent td pxv)),
        [remoteQueryEvent td pxv, px4ApplyEvent td pxv,
          Event.touch (px4PatchMarker td pxv)], ?_, ?_, ?_, ?_⟩
      · rw [e]
        exact px4_patch_step_absent td pxv _
          (by rw [isfile_emit]; exact hm')
      · simp [touch_file, addFile, emit]
      all_goals
        simp [List.countP_cons, List.countP_nil, isRm, isGitClone,
          remoteQueryEvent, px4ApplyEvent]

theorem pymavlink_patch_step_present (td : Path) (pxv : String)
    (ok : Oracle) (s : St)
    (h : isfile s (pymavlinkPatchMarker td pxv) = true) :
    pymavlink_patch_step td pxv ok s = Except.ok s := by
  simp [pymavlink_patch_step, pymavlinkPatchMarker] at h ⊢
  simp [h, pure, Except.pure]

theorem pymavlink_patch_step_absent (td : Path) (pxv : String) (s : St)
    (h : isfile s (pymavlinkPatchMarker td pxv) = false) :
    pymavlink_patch_step td pxv allOk s =
      Except.ok (touch_file (pymavlinkPatchMarker td pxv)
        (emit (emit s (pymavlinkResetEvent td pxv))
          (pymavlinkApplyEvent td pxv))) := by
  simp [pymavlink_patch_step, pymavlinkPatchMarker] at h ⊢
  simp [h, checkCall, allOk, bind, Except.bind, pure, Except.pure,
    pymavlinkResetEvent, pymavlinkApplyEvent, pymavlinkPatchMarker, emit]

/-- C2: both marker-guarded patch sites are idempotent.  With the marker
present the step is a strict no-op returning the state unchanged; from
any state a first run followed by a second run applies the patch exactly
once (the `git apply` count grows by one when the marker was absent and
by zero otherwise, and the second run returns its input unchanged). -/
theorem patch_apply_idempotent (td : Path) (pxv : String) (s : St) :
    (isfile s (px4PatchMarker td pxv) = true →
      px4_patch_step td pxv allOk s = Except.ok s) ∧
    (isfile s (pymavlinkPatchMarker td pxv) = true →
      pymavlink_patch_step td pxv allOk s = Except.ok s) ∧
    (∀ s₁, px4_patch_step td pxv allOk s = Except.ok s₁ →
      px4_patch_step td pxv allOk s₁ = Except.ok s₁ ∧
      s₁.trace = s.trace ++
        (if isfile s (px4PatchMarker td pxv) = true then []
          else [px4ApplyEvent td pxv, .touch (px4PatchMarker td pxv)]) ∧
      s₁.trace.countP isGitApply = s.trace.countP isGitApply +
        (if isfile s (px4PatchMarker td pxv) = true then 0 else 1)) ∧
    (∀ s₁, pymavlink_patch_step td pxv allOk s = Except.ok s₁ →
      pymavlink_patch_step td pxv allOk s₁ = Except.ok s₁ ∧
      s₁.trace = s.trace ++
        (if isfile s (pymavlinkPatchMarker td pxv) = true then []
          else [pymavlinkResetEvent td pxv, pymavlinkApplyEvent td pxv,
            .touch (pymavlinkPatchMarker td pxv)]) ∧
      s₁.trace.countP isGitApply = s.trace.countP isGitApply +
        (if isfile s (pymavlinkPatchMarker td pxv) = true then 0
          else 1)) := by
  refine ⟨px4_patch_step_present td pxv allOk s,
    pymavlink_patch_step_present td pxv allOk s, ?_, ?_⟩
  · intro s₁ h
    by_cases hm : isfile s (px4PatchMarker td pxv) = true
    · rw [px4_patch_step_present td pxv allOk s hm] at h
      obtain rfl : s = s₁ := by simpa using h
      exact ⟨px4_patch_step_present td pxv allOk s hm, by simp [hm],
        by simp [hm]⟩
    · have hm' : isfile s (px4PatchMarker td pxv) = false := by
        simpa using hm
      rw [px4_patch_step_absent td pxv s hm'] at h
      obtain rfl := (by simpa using h :
        touch_file (px4PatchMarker td pxv)
          (emit s (px4ApplyEvent td pxv)) = s₁)
      refine ⟨?_, ?_, ?_⟩
      · apply px4_patch_step_present
        simp [touch_file, addFile, isfile, emit]
      · simp [hm', touch_file, addFile, emit]
      · simp [hm', touch_file, addFile, emit, List.countP_append,
          List.countP_cons, List.countP_nil, isGitApply, px4ApplyEvent]
  · intro s₁ h
    by_cases hm : isfile s (pymavlinkPatchMarker td pxv) = true
    · rw [pymavlink_patch_step_present td pxv allOk s hm] at h
      obtain rfl : s = s₁ := by simpa using h
      exact ⟨pymavlink_patch_step_present td pxv allOk s hm, by simp [hm],
        by simp [hm]⟩
    · have hm' : isfile s (pymavlinkPatchMarker td pxv) = false := by
        simpa using hm
      rw [pymavlink_patch_step_absent td pxv s hm'] at h
      obtain rfl := (by simpa using h :
        touch_file (pymavlinkPatchMarker td pxv)
          (emit (emit s (pymavlinkResetEvent td pxv))
            (pymavlinkApplyEvent td pxv)) = s₁)
      refine ⟨?_, ?_, ?_⟩
      · apply pymavlink_patch_step_present
        simp [touch_file, addFile, isfile, emit]
      · simp [hm', touch_file, addFile, emit]
      · simp [hm', touch_file, addFile, emit, List.countP_append,
          List.countP_cons, List.countP_nil, isGitApply,
          pymavlinkApplyEvent, pymavlinkResetEvent]

theorem checkCall_cases (ok : Oracle) (a : List Arg) (c : Option Path)
    (s : St) :
    checkCall ok a c s = Except.ok (emit s (.call a c)) ∨
    checkCall ok a c s = Except.error (emit s (.call a c)) := by
  unfold checkCall
  cases ok a c <;> simp

theorem mavlink_marker_ne_bell (td : Path) (pxv : String) :
    ¬(mavlink_marker td pxv = bell_xml_def td pxv) := by
  unfold mavlink_marker bell_xml_def message_definitions_dir PX4_DIR
    BUILD_DIR pjoin
  split <;> simp [List.append_assoc]

theorem bind_checkCall_error {ok : Oracle} {a : List Arg}
    {c : Option Path} {s : St} {f : St → Except St St} {s' : St}
    (h : checkCall ok a c s >>= f = Except.error s') :
    s' = emit s (.call a c) ∨ f (emit s (.call a c)) = Except.error s' := by
  revert h
  unfold checkCall
  cases ok a c <;> simp [bind, Except.bind] <;> intro h <;> simp [h]

theorem bind_checkCall_ok {ok : Oracle} {a : List Arg} {c : Option Path}
    {s : St} {f : St → Except St St} {s' : St}
    (h : checkCall ok a c s >>= f = Except.ok s') :
    f (emit s (.call a c)) = Except.ok s' := by
  revert h
  unfold checkCall
  cases ok a c <;> simp [bind, Except.bind]

/-- C5: for each marker-guarded one-time action (PX4 patch, pymavlink
patch, message commit) and any oracle of command outcomes, the marker is
created only after the last command succeeded: the touch event of the
marker ends the recorded action, every raising run leaves the marker
absent, and every successful run leaves it present. -/
theorem marker_only_after_success (td : Path) (pxv : String) (ok : Oracle)
    (s : St) :
    (isfile s (px4PatchMarker td pxv) = false →
      (∀ s', px4_patch_step td pxv ok s = Except.error s' →
        isfile s' (px4PatchMarker td pxv) = false) ∧
      (∀ s', px4_patch_step td pxv ok s = Except.ok s' →
        isfile s' (px4PatchMarker td pxv) = true ∧
        ∃ l, s'.trace = s.trace ++ l ++
          [.touch (px4PatchMarker td pxv)])) ∧
    (isfile s (pymavlinkPatchMarker td pxv) = false →
      (∀ s', pymavlink_patch_step td pxv ok s = Except.error s' →
        isfile s' (pymavlinkPatchMarker td pxv) = false) ∧
      (∀ s', pymavlink_patch_step td pxv ok s = Except.ok s' →
        isfile s' (pymavlinkPatchMarker td pxv) = true ∧
        ∃ l, s'.trace = s.trace ++ l ++
          [.touch (pymavlinkPatchMarker td pxv)])) ∧
    (isfile s (mavlink_marker td pxv) = false →
      (∀ s', mavlink_commit_step td pxv ok s = Except.error s' →
        isfile s' (mavlink_marker td pxv) = false) ∧
      (∀ s', mavlink_commit_step td pxv ok s = Except.ok s' →
        isfile s' (mavlink_marker td pxv) = true ∧
        ∃ l, s'.trace = s.trace ++ l ++
          [.touch (mavlink_marker td pxv)])) := by
  refine ⟨?_, ?_, ?_⟩
  · intro hm
    have hm' : isfile s (pjoin (BUILD_DIR td pxv) ".px4-patched") =
        false := hm
    constructor
    · intro s' h
      unfold px4_patch_step at h
      simp only [hm', Bool.false_eq_true, if_false] at h
      rcases checkCall_cases ok _ _ s with hk | hk <;>
        rw [hk] at h <;>
        simp [bind, Except.bind, pure, Except.pure] at h
      rw [← h]
      exact hm
    · intro s' h
      unfold px4_patch_step at h
      simp only [hm', Bool.false_eq_true, if_false] at h
      rcases checkCall_cases ok _ _ s with hk | hk <;>
        rw [hk] at h <;>
        simp [bind, Except.bind, pure, Except.pure] at h
      rw [← h]
      refine ⟨by simp [touch_file, addFile, isfile, emit, px4PatchMarker],
        [px4ApplyEvent td pxv], ?_⟩
      simp [touch_file, addFile, emit, px4ApplyEvent, px4PatchMarker]
  · intro hm
    have hm' : isfile s (pjoin (BUILD_DIR td pxv) ".pymavlink-patched") =
        false := hm
    constructor
    · intro s' h
      unfold pymavlink_patch_step at h
      simp only [hm', Bool.false_eq_true, if_false] at h
      rcases checkCall_cases ok [.s "git", .s "reset", .s "--hard"]
        (some (PYMAVLINK_DIR td pxv)) s with hk | hk <;>
        rw [hk] at h <;>
        simp [bind, Except.bind, pure, Except.pure] at h
      · rcases checkCall_cases ok _ _
          (emit s (.call [.s "git", .s "reset", .s "--hard"]
            (some (PYMAVLINK_DIR td pxv)))) with hk2 | hk2 <;>
          rw [hk2] at h <;>
          simp [bind, Except.bind, pure, Except.pure] at h
        rw [← h]
        exact hm
      · rw [← h]
        exact hm
    · intro s' h
      unfold pymavlink_patch_step at h
      simp only [hm', Bool.false_eq_true, if_false] at h
      rcases checkCall_cases ok [.s "git", .s "reset", .s "--hard"]
        (some (PYMAVLINK_DIR td pxv)) s with hk | hk <;>
        rw [hk] at h <;>
        simp [bind, Except.bind, pure, Except.pure] at h
      rcases checkCall_cases ok _ _
        (emit s (.call [.s "git", .s "reset", .s "--hard"]
          (some (PYMAVLINK_DIR td pxv)))) with hk2 | hk2 <;>
        rw [hk2] at h <;>
        simp [bind, Except.bind, pure, Except.pure] at h
      rw [← h]
      refine ⟨by simp [touch_file, addFile, isfile, emit,
        pymavlinkPatchMarker],
        [pymavlinkResetEvent td pxv, pymavlinkApplyEvent td pxv], ?_⟩
      simp [touch_file, addFile, emit, pymavlinkResetEvent,
        pymavlinkApplyEvent, pymavlinkPatchMarker]
  · intro hm
    have hnb : ¬(mavlink_marker td pxv = bell_xml_def td pxv) :=
      mavlink_marker_ne_bell td pxv
    have hbase : isfile (copyfile (pjoin td "bell.xml")
        (bell_xml_def td pxv) s) (mavlink_marker td pxv) = false := by
      simp [isfile, copyfile, addFile, emit, List.mem_cons, hnb]
      simpa [isfile] using hm
    constructor
    · intro s' h
      unfold mavlink_commit_step at h
      simp only [hm, Bool.false_eq_true, if_false] at h
      by_cases hv : verLt pxv "v1.13.0" = true <;>
        simp only [hv, Bool.false_eq_true, if_true, if_false,
          pure_bind] at h
      · rcases bind_checkCall_error h with rfl | h
        · simpa [isfile_emit] using hbase
        rcases bind_checkCall_error h with rfl | h
        · simpa [isfile_emit] using hbase
        rcases bind_checkCall_error h with rfl | h
        · simpa [isfile_emit] using hbase
        rcases bind_checkCall_error h with rfl | h
        · simpa [isfile_emit] using hbase
        rcases bind_checkCall_error h with rfl | h
        · simpa [isfile_emit] using hbase
        simp [pure, Except.pure] at h
      · rcases bind_checkCall_error h with rfl | h
        · simpa [isfile_emit] using hbase
        rcases bind_checkCall_error h with rfl | h
        · simpa [isfile_emit] using hbase
        rcases bind_checkCall_error h with rfl | h
        · simpa [isfile_emit] using hbase
        rcases bind_checkCall_error h with rfl | h
        · simpa [isfile_emit] using hbase
        simp [pure, Except.pure] at h
    · intro s' h
      unfold mavlink_commit_step at h
      simp only [hm, Bool.false_eq_true, if_false] at h
      by_cases hv : verLt pxv "v1.13.0" = true <;>
        simp only [hv, Bool.false_eq_true, if_true, if_false,
          pure_bind] at h
      · replace h := bind_checkCall_ok h
        replace h := bind_checkCall_ok h
        replace h := bind_checkCall_ok h
        replace h := bind_checkCall_ok h
        replace h := bind_checkCall_ok h
        simp only [pure, Except.pure, Except.ok.injEq] at h
        rw [← h]
        refine ⟨by simp [touch_file, addFile, isfile, emit],
          [bellCopyEvent td pxv, mavgenCEvent td pxv, gitEmailEvent td pxv,
            gitNameEvent td pxv, gitAddEvent td pxv,
            gitCommitEvent td pxv], ?_⟩
        simp [touch_file, addFile, emit, copyfile, bellCopyEvent,
          mavgenCEvent, gitEmailEvent, gitNameEvent, gitAddEvent,
          gitCommitEvent]
      · replace h := bind_checkCall_ok h
        replace h := bind_checkCall_ok h
        replace h := bind_checkCall_ok h
        replace h := bind_checkCall_ok h
        simp only [pure, Except.pure, Except.ok.injEq] at h
        rw [← h]
        refine ⟨by simp [touch_file, addFile, isfile, emit],
          [bellCopyEvent td pxv, gitEmailEvent td pxv, gitNameEvent td pxv,
            gitAddEvent td pxv, gitCommitEvent td pxv], ?_⟩
        simp [touch_file, addFile, emit, copyfile, bellCopyEvent,
          gitEmailEvent, gitNameEvent, gitAddEvent, gitCommitEvent]

/-- C8: `build_px4` builds the targets one at a time in list order
(`make` then copy, per target, in the recorded trace) and copies each
image into the output directory as
`{target}.{firmware_version}.{build_tag}.px4`. -/
theorem build_px4_artifacts (td : Path) (pxv version : String)
    (targets : List String) (s : St) :
    ∃ s', build_px4 td pxv allOk targets version s = Except.ok s' ∧
      s'.trace = s.trace ++ targets.flatMap
        (fun t => [makeEvent td pxv t,
          .cpfile (artifactSrc td pxv t) (artifactDst td pxv version t)]) ∧
      (∀ p, p ∈ s.fs.files → p ∈ s'.fs.files) ∧
      (∀ t ∈ targets, artifactDst td pxv version t ∈ s'.fs.files) := by
  induction targets generalizing s with
  | nil => exact ⟨s, by simp [build_px4, pure, Except.pure], by simp, fun p hp => hp, by simp⟩
  | cons t ts ih =>
    obtain ⟨s', h1, h2, h3, h4⟩ := ih
      (copyfile (artifactSrc td pxv t) (artifactDst td pxv version t)
        (emit s (makeEvent td pxv t)))
    refine ⟨s', ?_, ?_, ?_, ?_⟩
    · unfold build_px4 at h1 ⊢
      simp only [List.foldlM_cons, checkCall, allOk, if_true, bind,
        Except.bind, pure, Except.pure, makeEvent, artifactSrc,
        artifactDst] at h1 ⊢
      exact h1
    · rw [h2]
      simp [copyfile, addFile, emit, List.flatMap_cons]
    · intro p hp
      exact h3 p (by simp [copyfile, addFile, emit, hp])
    · intro t' ht'
      rcases List.mem_cons.mp ht' with rfl | ht'
      · exact h3 _ (by simp [copyfile, addFile, emit])
      · exact h4 t' ht'

theorem copy_outputs_spec (td : Path) (srcdir : Path)
    (names : List String) (s : St) :
    (copy_outputs td srcdir names s).trace = s.trace ++ names.map
      (fun f => .cpfile (pjoin srcdir f) (pjoin (DIST_DIR td) f)) ∧
    (copy_outputs td srcdir names s).fs.dirs = s.fs.dirs ∧
    (∀ p, p ∈ (copy_outputs td srcdir names s).fs.files ↔
      (p ∈ s.fs.files ∨ ∃ f ∈ names, p = pjoin (DIST_DIR td) f)) := by
  induction names generalizing s with
  | nil => simp [copy_outputs]
  | cons f fs ih =>
    obtain ⟨ih1, ih2, ih3⟩ := ih
      (copyfile (pjoin srcdir f) (pjoin (DIST_DIR td) f) s)
    have e : copy_outputs td srcdir (f :: fs) s =
        copy_outputs td srcdir fs
          (copyfile (pjoin srcdir f) (pjoin (DIST_DIR td) f) s) := by
      simp [copy_outputs, List.foldl_cons]
    refine ⟨?_, ?_, ?_⟩
    · rw [e, ih1]
      simp [copyfile, addFile, emit]
    · rw [e, ih2]
      simp [copyfile, addFile, emit]
    · intro p
      rw [e, ih3 p]
      simp [copyfile, addFile, emit, List.mem_cons]
      tauto

theorem build_pymavlink_rest_spec (td : Path) (pxv : String)
    (mdd bx : Path) (ws : Bool) (s s1 : St)
    (hstep : pymavlink_patch_step td pxv allOk s = Except.ok s1) :
    ∃ (s' : St) (names : List String),
      build_pymavlink td pxv allOk mdd bx ws s = Except.ok s' ∧
      s'.trace = s1.trace ++ [.rm (v10dir td pxv) true,
        .cptree mdd (v10dir td pxv), setupEvent td pxv] ++
        names.map (distCopyEvent td pxv) ++
        (if ws then [wiresharkEvent td pxv bx] else []) ∧
      (∀ q, q ∈ s'.fs.files →
        ((q ∈ s1.fs.files ∧ (v10dir td pxv).isPrefixOf q = false) ∨
          ∃ f, q = pjoin (DIST_DIR td) f)) ∧
      (∀ q, q ∈ s1.fs.files → (v10dir td pxv).isPrefixOf q = false →
        q ∈ s'.fs.files) := by
  have e : build_pymavlink td pxv allOk mdd bx ws s =
      (let s2 := rmtree (v10dir td pxv) true s1
       let s3 := copytree mdd (v10dir td pxv) s2
       let s4 := emit s3 (setupEvent td pxv)
       let s5 := copy_outputs td (pjoin (PYMAVLINK_DIR td pxv) "dist")
         (listdir s4 (pjoin (PYMAVLINK_DIR td pxv) "dist")) s4
       if ws then Except.ok (emit s5 (wiresharkEvent td pxv bx))
       else Except.ok s5) := by
    unfold build_pymavlink
    rw [hstep]
    simp only [bind, Except.bind, checkCall, allOk, if_true, v10dir,
      setupEvent, wiresharkEvent, pure, Except.pure]
  set s2 := rmtree (v10dir td pxv) true s1 with hs2
  set s3 := copytree mdd (v10dir td pxv) s2 with hs3
  set s4 := emit s3 (setupEvent td pxv) with hs4
  set nm := listdir s4 (pjoin (PYMAVLINK_DIR td pxv) "dist") with hnm
  set s5 := copy_outputs td (pjoin (PYMAVLINK_DIR td pxv) "dist") nm s4
    with hs5
  obtain ⟨c1, c2, c3⟩ := copy_outputs_spec td
    (pjoin (PYMAVLINK_DIR td pxv) "dist") nm s4
  have hfiles4 : s4.fs.files =
      s1.fs.files.filter (fun q => !((v10dir td pxv).isPrefixOf q)) := by
    simp [hs4, hs3, hs2, emit, copytree, addDir, rmtree]
  have htr4 : s4.trace = s1.trace ++ [.rm (v10dir td pxv) true,
      .cptree mdd (v10dir td pxv), setupEvent td pxv] := by
    simp [hs4, hs3, hs2, emit, copytree, addDir, rmtree]
  refine ⟨if ws then emit s5 (wiresharkEvent td pxv bx) else s5, nm,
    ?_, ?_, ?_, ?_⟩
  · rw [e]
    split <;> rfl
  · have : (if ws then emit s5 (wiresharkEvent td pxv bx) else s5).trace =
        s5.trace ++ (if ws then [wiresharkEvent td pxv bx] else []) := by
      split <;> simp [emit]
    rw [this, c1, htr4]
    simp [distCopyEvent, List.append_assoc]
  · intro q hq
    have hq5 : q ∈ s5.fs.files := by
      revert hq
      split <;> simp [emit]
    rcases (c3 q).mp hq5 with hq4 | ⟨f, _, rfl⟩
    · rw [hfiles4] at hq4
      rcases List.mem_filter.mp hq4 with ⟨hmem, hpre⟩
      exact Or.inl ⟨hmem, by simpa using hpre⟩
    · exact Or.inr ⟨f, rfl⟩
  · intro q hq hpre
    have hq5 : q ∈ s5.fs.files := by
      apply (c3 q).mpr
      exact Or.inl (by rw [hfiles4]; exact List.mem_filter.mpr ⟨hq, by simp [hpre]⟩)
    split
    · simpa [emit] using hq5
    · exact hq5

theorem v10_not_prefix_dist (td : Path) (pxv : String) (f : String) :
    (v10dir td pxv).isPrefixOf (pjoin (DIST_DIR td) f) = false := by
  unfold v10dir PYMAVLINK_DIR PX4_DIR BUILD_DIR DIST_DIR pjoin
  split <;>
    simp only [List.append_assoc, List.singleton_append,
      List.cons_append, List.nil_append, isPrefixOf_append_cancel] <;>
    simp [List.isPrefixOf]

/-- C10: on every invocation, patched already or not, `build_pymavlink`
deletes the codec generator's `message_definitions/v1.0` directory with
`ignore_errors` set and immediately replaces it with a fresh copy of the
firmware tree's message-definition directory; no previously existing file
under that directory survives the run. -/
theorem message_defs_refreshed_every_run (td : Path) (pxv : String)
    (mdd bx : Path) (ws : Bool) (s : St) :
    ∃ (s' : St) (names : List String),
      build_pymavlink td pxv allOk mdd bx ws s = Except.ok s' ∧
      s'.trace = s.trace ++
        (if isfile s (pymavlinkPatchMarker td pxv) = true then []
          else [pymavlinkResetEvent td pxv, pymavlinkApplyEvent td pxv,
            .touch (pymavlinkPatchMarker td pxv)]) ++
        [.rm (v10dir td pxv) true, .cptree mdd (v10dir td pxv),
          setupEvent td pxv] ++ names.map (distCopyEvent td pxv) ++
        (if ws then [wiresharkEvent td pxv bx] else []) ∧
      (∀ q, q ∈ s.fs.files → (v10dir td pxv).isPrefixOf q = true →
        q ∉ s'.fs.files) := by
  by_cases hm : isfile s (pymavlinkPatchMarker td pxv) = true
  · obtain ⟨s', names, h1, h2, h3, _⟩ := build_pymavlink_rest_spec td pxv
      mdd bx ws s s (pymavlink_patch_step_present td pxv allOk s hm)
    refine ⟨s', names, h1, ?_, ?_⟩
    · rw [h2]
      simp [hm]
    · intro q hq hpre hq'
      rcases h3 q hq' with ⟨_, hf⟩ | ⟨f, rfl⟩
      · rw [hpre] at hf
        cases hf
      · rw [v10_not_prefix_dist td pxv f] at hpre
        cases hpre
  · have hm' : isfile s (pymavlinkPatchMarker td pxv) = false := by
      simpa using hm
    obtain ⟨s', names, h1, h2, h3, _⟩ := build_pymavlink_rest_spec td pxv
      mdd bx ws s _ (pymavlink_patch_step_absent td pxv s hm')
    refine ⟨s', names, h1, ?_, ?_⟩
    · rw [h2]
      simp [hm', touch_file, addFile, emit]
    · intro q hq hpre hq'
      rcases h3 q hq' with ⟨_, hf⟩ | ⟨f, rfl⟩
      · rw [hpre] at hf
        cases hf
      · rw [v10_not_prefix_dist td pxv f] at hpre
        cases hpre

theorem traceQuiet_of_append (td : Path) (s s' : St) (l : List Event)
    (h : s'.trace = s.trace ++ l)
    (h1 : l.countP isGitCommit = 0)
    (h2 : l.countP (isBellCopy td) = 0)
    (h3 : l.countP isMavgenC = 0) : TraceQuiet td s s' := by
  refine ⟨?_, ?_, ?_⟩ <;> simp [h, List.countP_append, h1, h2, h3]

theorem mavlink_marker_ne_px4marker (td : Path) (pxv : String) :
    ¬(mavlink_marker td pxv = px4PatchMarker td pxv) := by
  unfold mavlink_marker px4PatchMarker pjoin
  simp

theorem mavlink_marker_ne_pymavlinkmarker (td : Path) (pxv : String) :
    ¬(mavlink_marker td pxv = pymavlinkPatchMarker td pxv) := by
  unfold mavlink_marker pymavlinkPatchMarker pjoin
  simp

theorem mavlink_marker_ne_dist (td : Path) (pxv : String) (f : String) :
    ¬(mavlink_marker td pxv = pjoin (DIST_DIR td) f) := by
  unfold mavlink_marker BUILD_DIR DIST_DIR pjoin
  simp [List.append_assoc]

theorem v10_not_prefix_mavlink_marker (td : Path) (pxv : String) :
    (v10dir td pxv).isPrefixOf (mavlink_marker td pxv) = false := by
  unfold v10dir PYMAVLINK_DIR PX4_DIR mavlink_marker BUILD_DIR pjoin
  split <;>
    simp only [List.append_assoc, List.singleton_append,
      List.cons_append, List.nil_append, isPrefixOf_append_cancel] <;>
    simp [List.isPrefixOf]

theorem dist_src_ne_bell (td : Path) (pxv : String) (f : String) :
    ¬(pjoin (pjoin (PYMAVLINK_DIR td pxv) "dist") f =
      pjoin td "bell.xml") := by
  unfold PYMAVLINK_DIR PX4_DIR BUILD_DIR pjoin
  split <;> simp [List.append_assoc]

theorem px4build_src_ne_bell (td : Path) (pxv : String) (t : String) :
    ¬(artifactSrc td pxv t = pjoin td "bell.xml") := by
  unfold artifactSrc PX4_DIR BUILD_DIR pjoin
  simp [List.append_assoc]

theorem clone_pymavlink_quiet (td : Path) (pxv : String) (ok : Oracle)
    (s s' : St) (h : clone_pymavlink td pxv ok s = Except.ok s') :
    s'.fs.files = s.fs.files ∧ TraceQuiet td s s' := by
  unfold clone_pymavlink at h
  split at h
  · simp only [pure, Except.pure, Except.ok.injEq] at h
    subst h
    exact ⟨rfl, traceQuiet_of_append td s s [] (by simp) rfl rfl rfl⟩
  · split at h
    · unfold checkCall at h
      split at h
      · simp only [Except.ok.injEq] at h
        subst h
        refine ⟨rfl, traceQuiet_of_append td s _
          [.call [.s "git", .s "pull"] (some (PYMAVLINK_DIR td pxv))]
          (by simp [emit]) ?_ ?_ ?_⟩ <;>
          simp [List.countP_cons, List.countP_nil, isGitCommit,
            isBellCopy, isMavgenC]
      · cases h
    · unfold checkCall at h
      split at h
      case isFalse => cases h
      simp only [bind, Except.bind, pure, Except.pure,
        Except.ok.injEq] at h
      subst h
      refine ⟨rfl, traceQuiet_of_append td s _
        [.call [.s "git", .s "clone",
          .s "https://github.com/ardupilot/pymavlink",
          .p (PYMAVLINK_DIR td pxv)] none]
        (by simp [addDir, emit]) ?_ ?_ ?_⟩ <;>
        simp [List.countP_cons, List.countP_nil, isGitCommit,
          isBellCopy, isMavgenC]

theorem install_dependencies_quiet (td : Path) (pxv : String)
    (ok : Oracle) (s s' : St)
    (h : install_dependencies td pxv ok s = Except.ok s') :
    s'.fs.files = s.fs.files ∧ TraceQuiet td s s' := by
  unfold install_dependencies at h
  replace h := bind_checkCall_ok h
  unfold checkCall at h
  split at h
  · simp only [Except.ok.injEq] at h
    subst h
    refine ⟨rfl, traceQuiet_of_append td s _
      [.call [.s PY, .s "-m", .s "pip", .s "install", .s "--upgrade",
        .s "pip", .s "wheel"] none,
       .call [.s PY, .s "-m", .s "pip", .s "install", .s "-r",
        .p (pjoin (PYMAVLINK_DIR td pxv) "requirements.txt")] none]
      (by simp [emit]) ?_ ?_ ?_⟩ <;>
      simp [List.countP_cons, List.countP_nil, isGitCommit, isBellCopy,
        isMavgenC, PY]
  · cases h

theorem clone_px4_quiet (td : Path) (pxv : String) (lines : List String)
    (n : Nat) (s s' : St) (hloc : localVersionOf lines = some pxv)
    (h : clone_px4 td pxv allOk lines (n + 1) s = Except.ok s') :
    (s'.fs.files = s.fs.files ∨
      s'.fs.files = px4PatchMarker td pxv :: s.fs.files) ∧
    TraceQuiet td s s' ∧ MarkerStable td pxv s s' := by
  have hst : ∀ x : St, px4_patch_step td pxv allOk x = Except.ok s' →
      (s'.fs.files = x.fs.files ∨
        s'.fs.files = px4PatchMarker td pxv :: x.fs.files) ∧
      ∃ l, s'.trace = x.trace ++ l ∧ l.countP isGitCommit = 0 ∧
        l.countP (isBellCopy td) = 0 ∧ l.countP isMavgenC = 0 := by
    intro x hx
    by_cases hmk : isfile x (px4PatchMarker td pxv) = true
    · rw [px4_patch_step_present td pxv allOk x hmk] at hx
      simp only [Except.ok.injEq] at hx
      subst hx
      exact ⟨Or.inl rfl, [], by simp, rfl, rfl, rfl⟩
    · rw [px4_patch_step_absent td pxv x (by simpa using hmk)] at hx
      simp only [Except.ok.injEq] at hx
      subst hx
      refine ⟨Or.inr (by simp [touch_file, addFile, emit]),
        [px4ApplyEvent td pxv, .touch (px4PatchMarker td pxv)],
        by simp [touch_file, addFile, emit], ?_, ?_, ?_⟩ <;>
        simp [List.countP_cons, List.countP_nil, isGitCommit, isBellCopy,
          isMavgenC, px4ApplyEvent]
  by_cases hd : isdir s (PX4_DIR td pxv) = true
  · have e : clone_px4 td pxv allOk lines (n + 1) s =
        px4_patch_step td pxv allOk (emit s (remoteQueryEvent td pxv)) := by
      simp [clone_px4, hd, hloc, checkOutput, allOk, bind, Except.bind,
        pure, Except.pure, remoteQueryEvent]
    rw [e] at h
    obtain ⟨hf, l, htr, c1, c2, c3⟩ := hst _ h
    refine ⟨?_, traceQuiet_of_append td s s'
      (remoteQueryEvent td pxv :: l)
      (by simp [htr, emit]) ?_ ?_ ?_, ?_⟩
    · simpa [emit] using hf
    · simp [List.countP_cons, isGitCommit, remoteQueryEvent, c1]
    · simp [List.countP_cons, isBellCopy, remoteQueryEvent, c2]
    · simp [List.countP_cons, isMavgenC, remoteQueryEvent, c3]
    · rcases hf with hf | hf <;>
        simp [MarkerStable, hf, emit, List.mem_cons,
          mavlink_marker_ne_px4marker td pxv]
  · have hd' : isdir s (PX4_DIR td pxv) = false := by simpa using hd
    have e : clone_px4 td pxv allOk lines (n + 1) s =
        px4_patch_step td pxv allOk
          (addDir (PX4_DIR td pxv) (emit s (px4CloneEvent td pxv))) := by
      simp [clone_px4, hd', checkCall, allOk, bind, Except.bind, pure,
        Except.pure, px4CloneEvent]
    rw [e] at h
    obtain ⟨hf, l, htr, c1, c2, c3⟩ := hst _ h
    refine ⟨?_, traceQuiet_of_append td s s'
      (px4CloneEvent td pxv :: l)
      (by simp [htr, addDir, emit]) ?_ ?_ ?_, ?_⟩
    · simpa [addDir, emit] using hf
    · simp [List.countP_cons, isGitCommit, px4CloneEvent, c1]
    · simp [List.countP_cons, isBellCopy, px4CloneEvent, c2]
    · simp [List.countP_cons, isMavgenC, px4CloneEvent, c3]
    · rcases hf with hf | hf <;>
        simp [MarkerStable, hf, addDir, emit, List.mem_cons,
          mavlink_marker_ne_px4marker td pxv]

theorem mavlink_commit_step_present_run (td : Path) (pxv : String)
    (ok : Oracle) (s : St)
    (hm : isfile s (mavlink_marker td pxv) = true) :
    mavlink_commit_step td pxv ok s = Except.ok s := by
  unfold mavlink_commit_step
  simp [hm, pure, Except.pure]

theorem mavlink_commit_step_absent_run (td : Path) (pxv : String)
    (s : St) (hm : isfile s (mavlink_marker td pxv) = false) :
    mavlink_commit_step td pxv allOk s = Except.ok
      { fs := { dirs := s.fs.dirs,
                files := mavlink_marker td pxv :: bell_xml_def td pxv ::
                  s.fs.files },
        trace := s.trace ++ commitEvents td pxv ++
          [.touch (mavlink_marker td pxv)] } := by
  unfold mavlink_commit_step
  simp only [hm, Bool.false_eq_true, if_false]
  by_cases hv : verLt pxv "v1.13.0" = true <;>
    simp [hv, checkCall, allOk, bind, Except.bind, pure, Except.pure,
      copyfile, addFile, emit, touch_file, commitEvents, bellCopyEvent,
      mavgenCEvent, gitEmailEvent, gitNameEvent, gitAddEvent,
      gitCommitEvent]

theorem commitEvents_counts (td : Path) (pxv : String) :
    (commitEvents td pxv).countP isGitCommit = 1 ∧
    (commitEvents td pxv).countP (isBellCopy td) = 1 ∧
    (commitEvents td pxv).countP isMavgenC =
      (if verLt pxv "v1.13.0" = true then 1 else 0) := by
  by_cases hv : verLt pxv "v1.13.0" = true <;>
    simp [commitEvents, hv, List.countP_cons, List.countP_nil,
      List.countP_append, isGitCommit, isBellCopy, isMavgenC,
      bellCopyEvent, mavgenCEvent, gitEmailEvent, gitNameEvent,
      gitAddEvent, gitCommitEvent, PY]

theorem build_pymavlink_quiet (td : Path) (pxv : String) (mdd bx : Path)
    (ws : Bool) (s s' : St)
    (h : build_pymavlink td pxv allOk mdd bx ws s = Except.ok s') :
    TraceQuiet td s s' ∧ MarkerStable td pxv s s' := by
  have core : ∀ s1 : St,
      pymavlink_patch_step td pxv allOk s = Except.ok s1 →
      (∃ l1, s1.trace = s.trace ++ l1 ∧ l1.countP isGitCommit = 0 ∧
        l1.countP (isBellCopy td) = 0 ∧ l1.countP isMavgenC = 0) →
      (mavlink_marker td pxv ∈ s1.fs.files ↔
        mavlink_marker td pxv ∈ s.fs.files) →
      TraceQuiet td s s' ∧ MarkerStable td pxv s s' := by
    intro s1 hstep ⟨l1, htr1, d1, d2, d3⟩ hmk
    obtain ⟨s'', names, h1, h2, h3, h4⟩ :=
      build_pymavlink_rest_spec td pxv mdd bx ws s s1 hstep
    rw [h1] at h
    simp only [Except.ok.injEq] at h
    subst h
    constructor
    · refine traceQuiet_of_append td s _
        (l1 ++ ([.rm (v10dir td pxv) true, .cptree mdd (v10dir td pxv),
          setupEvent td pxv] ++ names.map (distCopyEvent td pxv) ++
          (if ws then [wiresharkEvent td pxv bx] else []))) ?_ ?_ ?_ ?_
      · rw [h2, htr1]
        simp [List.append_assoc]
      all_goals
        rw [List.countP_append]
        refine Nat.add_eq_zero.mpr ⟨by assumption, ?_⟩
        rw [List.countP_eq_zero]
        intro e he
        simp only [List.mem_append, List.mem_cons, List.mem_map,
          List.not_mem_nil, or_false] at he
        rcases he with ((rfl | rfl | rfl) | ⟨f, _, rfl⟩) | he
        · simp [isGitCommit, isBellCopy, isMavgenC]
        · simp [isGitCommit, isBellCopy, isMavgenC]
        · simp [isGitCommit, isBellCopy, isMavgenC, setupEvent, PY]
        · simp [isGitCommit, isBellCopy, isMavgenC, distCopyEvent,
            dist_src_ne_bell td pxv f]
        · revert he
          split
          · intro he
            simp only [List.mem_cons, List.not_mem_nil, or_false] at he
            subst he
            simp [isGitCommit, isBellCopy, isMavgenC, wiresharkEvent, PY]
          · intro he
            simp at he
    · unfold MarkerStable
      rw [← hmk]
      constructor
      · intro hin
        rcases h3 _ hin with ⟨hs1, _⟩ | ⟨f, hf⟩
        · exact hs1
        · exact absurd hf (mavlink_marker_ne_dist td pxv f)
      · intro hin
        exact h4 _ hin (v10_not_prefix_mavlink_marker td pxv)
  by_cases hm : isfile s (pymavlinkPatchMarker td pxv) = true
  · exact core s (pymavlink_patch_step_present td pxv allOk s hm)
      ⟨[], by simp, rfl, rfl, rfl⟩ Iff.rfl
  · have hm' : isfile s (pymavlinkPatchMarker td pxv) = false := by
      simpa using hm
    refine core _ (pymavlink_patch_step_absent td pxv s hm')
      ⟨[pymavlinkResetEvent td pxv, pymavlinkApplyEvent td pxv,
        .touch (pymavlinkPatchMarker td pxv)],
        by simp [touch_file, addFile, emit], ?_, ?_, ?_⟩ ?_
    · simp [List.countP_cons, List.countP_nil, isGitCommit,
        pymavlinkResetEvent, pymavlinkApplyEvent]
    · simp [List.countP_cons, List.countP_nil, isBellCopy,
        pymavlinkResetEvent, pymavlinkApplyEvent]
    · simp [List.countP_cons, List.countP_nil, isMavgenC,
        pymavlinkResetEvent, pymavlinkApplyEvent]
    · simp [touch_file, addFile, emit, List.mem_cons,
        mavlink_marker_ne_pymavlinkmarker td pxv]

theorem build_px4_run (td : Path) (pxv version : String)
    (targets : List String) (s : St) :
    ∃ s', build_px4 td pxv allOk targets version s = Except.ok s' ∧
      s'.trace = s.trace ++ targets.flatMap
        (fun t => [makeEvent td pxv t,
          .cpfile (artifactSrc td pxv t) (artifactDst td pxv version t)]) ∧
      s'.fs.dirs = s.fs.dirs ∧
      (∀ p, p ∈ s'.fs.files ↔ p ∈ s.fs.files ∨
        ∃ t ∈ targets, p = artifactDst td pxv version t) := by
  induction targets generalizing s with
  | nil =>
    exact ⟨s, by simp [build_px4, pure, Except.pure], by simp, rfl,
      by simp⟩
  | cons t ts ih =>
    obtain ⟨s', h1, h2, h3, h4⟩ := ih
      (copyfile (artifactSrc td pxv t) (artifactDst td pxv version t)
        (emit s (makeEvent td pxv t)))
    refine ⟨s', ?_, ?_, ?_, ?_⟩
    · unfold build_px4 at h1 ⊢
      simp only [List.foldlM_cons, checkCall, allOk, if_true, bind,
        Except.bind, pure, Except.pure, makeEvent, artifactSrc,
        artifactDst] at h1 ⊢
      exact h1
    · rw [h2]
      simp [copyfile, addFile, emit, List.flatMap_cons]
    · rw [h3]
      simp [copyfile, addFile, emit]
    · intro p
      rw [h4 p]
      simp only [copyfile, addFile, emit, List.mem_cons]
      constructor
      · rintro ((rfl | hp) | ⟨g, hg, rfl⟩)
        · exact Or.inr ⟨t, by simp⟩
        · exact Or.inl hp
        · exact Or.inr ⟨g, by simp [hg]⟩
      · rintro (hp | ⟨g, hg, rfl⟩)
        · exact Or.inl (Or.inr hp)
        · rcases hg with rfl | hg
          · exact Or.inl (Or.inl rfl)
          · exact Or.inr ⟨g, hg, rfl⟩

theorem build_px4_quiet (td : Path) (pxv version : String)
    (targets : List String) (s s' : St)
    (h : build_px4 td pxv allOk targets version s = Except.ok s') :
    TraceQuiet td s s' ∧ MarkerStable td pxv s s' := by
  obtain ⟨s'', h1, h2, h3, h4⟩ := build_px4_run td pxv version targets s
  rw [h1] at h
  simp only [Except.ok.injEq] at h
  subst h
  constructor
  · refine traceQuiet_of_append td s _ _ h2 ?_ ?_ ?_ <;>
      (rw [List.countP_eq_zero]
       intro e he
       rw [List.mem_flatMap] at he
       obtain ⟨t, _, he⟩ := he
       simp only [List.mem_cons, List.not_mem_nil, or_false] at he
       rcases he with rfl | rfl)
    · simp [isGitCommit, makeEvent]
    · simp [isGitCommit]
    · simp [isBellCopy, makeEvent]
    · simp [isBellCopy, px4build_src_ne_bell td pxv t]
    · simp [isMavgenC, makeEvent]
    · simp [isMavgenC]
  · unfold MarkerStable
    rw [h4]
    simp only [or_iff_left_iff_imp]
    rintro ⟨t, _, hmav⟩
    exact absurd hmav (mavlink_marker_ne_dist td pxv _)

theorem traceQuiet_trans (td : Path) (a b c : St)
    (h1 : TraceQuiet td a b) (h2 : TraceQuiet td b c) :
    TraceQuiet td a c := by
  obtain ⟨x1, x2, x3⟩ := h1
  obtain ⟨y1, y2, y3⟩ := h2
  exact ⟨by rw [y1, x1], by rw [y2, x2], by rw [y3, x3]⟩

theorem isfile_eq_of_iff (a b : St) (p : Path)
    (h : p ∈ a.fs.files ↔ p ∈ b.fs.files) : isfile a p = isfile b p := by
  simp only [isfile]
  exact decide_eq_decide.mpr h

theorem main_run_analysis (td : Path) (pxv : String)
    (lines : List String) (n : Nat) (bp bx bw : Bool) (ver : String)
    (tg : List String) (s s₁ : St)
    (hloc : localVersionOf lines = some pxv)
    (h : main td pxv allOk lines (n + 1) bp bx bw ver tg s =
      Except.ok s₁) :
    mavlink_marker td pxv ∈ s₁.fs.files ∧
    s₁.trace.countP isGitCommit = s.trace.countP isGitCommit +
      (if isfile s (mavlink_marker td pxv) = true then 0 else 1) ∧
    s₁.trace.countP (isBellCopy td) = s.trace.countP (isBellCopy td) +
      (if isfile s (mavlink_marker td pxv) = true then 0 else 1) ∧
    s₁.trace.countP isMavgenC = s.trace.countP isMavgenC +
      (if isfile s (mavlink_marker td pxv) = true then 0
        else if verLt pxv "v1.13.0" = true then 1 else 0) := by
  unfold main at h
  simp only [bind, Except.bind] at h
  set s0 := makedirs (DIST_DIR td) s with hs0
  have q0 : TraceQuiet td s s0 := by
    refine traceQuiet_of_append td s s0 [.mkdirs (DIST_DIR td)]
      (by simp [hs0, makedirs, addDir, emit]) ?_ ?_ ?_ <;>
      simp [List.countP_cons, List.countP_nil, isGitCommit, isBellCopy,
        isMavgenC]
  have f0 : s0.fs.files = s.fs.files := by simp [hs0, makedirs, addDir, emit]
  cases hA : clone_pymavlink td pxv allOk s0 with
  | error e => rw [hA] at h; cases h
  | ok sA =>
  rw [hA] at h
  dsimp only at h
  obtain ⟨fA, qA⟩ := clone_pymavlink_quiet td pxv allOk s0 sA hA
  cases hB : clone_px4 td pxv allOk lines (n + 1) sA with
  | error e => rw [hB] at h; cases h
  | ok sB =>
  rw [hB] at h
  dsimp only at h
  obtain ⟨fB, qB, mB⟩ := clone_px4_quiet td pxv lines n sA sB hloc hB
  cases hC : install_dependencies td pxv allOk sB with
  | error e => rw [hC] at h; cases h
  | ok sC =>
  rw [hC] at h
  dsimp only at h
  obtain ⟨fC, qC⟩ := install_dependencies_quiet td pxv allOk sB sC hC
  have hmeq : isfile sC (mavlink_marker td pxv) =
      isfile s (mavlink_marker td pxv) := by
    apply isfile_eq_of_iff
    rw [fC]
    refine Iff.trans mB ?_
    rw [fA, f0]
  cases hD : mavlink_commit_step td pxv allOk sC with
  | error e => rw [hD] at h; cases h
  | ok sD =>
  rw [hD] at h
  dsimp only at h
  have hcommit : mavlink_marker td pxv ∈ sD.fs.files ∧
      sD.trace.countP isGitCommit = sC.trace.countP isGitCommit +
        (if isfile s (mavlink_marker td pxv) = true then 0 else 1) ∧
      sD.trace.countP (isBellCopy td) = sC.trace.countP (isBellCopy td) +
        (if isfile s (mavlink_marker td pxv) = true then 0 else 1) ∧
      sD.trace.countP isMavgenC = sC.trace.countP isMavgenC +
        (if isfile s (mavlink_marker td pxv) = true then 0
          else if verLt pxv "v1.13.0" = true then 1 else 0) := by
    by_cases hm : isfile sC (mavlink_marker td pxv) = true
    · rw [mavlink_commit_step_present_run td pxv allOk sC hm] at hD
      simp only [Except.ok.injEq] at hD
      subst hD
      rw [hmeq] at hm
      refine ⟨?_, by simp [hm], by simp [hm], by simp [hm]⟩
      have : mavlink_marker td pxv ∈ sC.fs.files := by
        have := hm
        rw [← hmeq] at this
        simpa [isfile] using this
      exact this
    · have hm' : isfile sC (mavlink_marker td pxv) = false := by
        simpa using hm
      rw [mavlink_commit_step_absent_run td pxv sC hm'] at hD
      simp only [Except.ok.injEq] at hD
      subst hD
      rw [hmeq] at hm'
      obtain ⟨cc1, cc2, cc3⟩ := commitEvents_counts td pxv
      refine ⟨by simp, ?_, ?_, ?_⟩ <;>
        simp [hm', List.countP_append, cc1, cc2, cc3,
          List.countP_cons, List.countP_nil, isGitCommit, isBellCopy,
          isMavgenC]
  obtain ⟨hmD, d1, d2, d3⟩ := hcommit
  have hpost : TraceQuiet td sD s₁ ∧ MarkerStable td pxv sD s₁ := by
    by_cases hbp : bp = true <;>
      simp only [hbp, if_true, Bool.false_eq_true, if_false] at h
    · cases hE : build_pymavlink td pxv allOk
          (message_definitions_dir td pxv) (bell_xml_def td pxv) bw sD with
      | error e => rw [hE] at h; cases h
      | ok sE =>
      rw [hE] at h
      dsimp only at h
      obtain ⟨qE, mE⟩ := build_pymavlink_quiet td pxv _ _ bw sD sE hE
      by_cases hbx : bx = true <;>
        simp only [hbx, if_true, Bool.false_eq_true, if_false] at h
      · obtain ⟨qF, mF⟩ := build_px4_quiet td pxv ver tg sE s₁ h
        exact ⟨traceQuiet_trans td sD sE s₁ qE qF, Iff.trans mF mE⟩
      · simp only [pure, Except.pure, Except.ok.injEq] at h
        subst h
        exact ⟨qE, mE⟩
    · dsimp only [pure, Except.pure] at h
      by_cases hbx : bx = true <;>
        simp only [hbx, if_true, Bool.false_eq_true, if_false] at h
      · exact build_px4_quiet td pxv ver tg sD s₁ h
      · simp only [Except.ok.injEq] at h
        subst h
        exact ⟨⟨rfl, rfl, rfl⟩, Iff.rfl⟩
  obtain ⟨qpost, mpost⟩ := hpost
  have qpre : TraceQuiet td s sC :=
    traceQuiet_trans td s sB sC
      (traceQuiet_trans td s sA sB
        (traceQuiet_trans td s s0 sA q0 qA) qB) qC
  obtain ⟨p1, p2, p3⟩ := qpre
  obtain ⟨o1, o2, o3⟩ := qpost
  refine ⟨mpost.mpr hmD, ?_, ?_, ?_⟩
  · rw [o1, d1, p1]
  · rw [o2, d2, p2]
  · rw [o3, d3, p3]

theorem px4_prefix_bell (td : Path) (pxv : String) :
    (PX4_DIR td pxv).isPrefixOf (bell_xml_def td pxv) = true := by
  unfold bell_xml_def message_definitions_dir pjoin
  split <;>
    (rw [List.append_assoc]
     exact isPrefixOf_self_append _ _)

theorem dist_prefix_pjoin (td : Path) (f : String) :
    (DIST_DIR td).isPrefixOf (pjoin (DIST_DIR td) f) = true :=
  isPrefixOf_self_append (DIST_DIR td) [f]

theorem build_pymavlink_files (td : Path) (pxv : String) (mdd bx : Path)
    (ws : Bool) (s s' : St)
    (h : build_pymavlink td pxv allOk mdd bx ws s = Except.ok s') :
    ∀ p, p ∈ s'.fs.files → p ∈ s.fs.files ∨
      p = pymavlinkPatchMarker td pxv ∨
      ∃ f, p = pjoin (DIST_DIR td) f := by
  by_cases hm : isfile s (pymavlinkPatchMarker td pxv) = true
  · obtain ⟨s'', names, h1, h2, h3, _⟩ := build_pymavlink_rest_spec td pxv
      mdd bx ws s s (pymavlink_patch_step_present td pxv allOk s hm)
    rw [h1] at h
    simp only [Except.ok.injEq] at h
    subst h
    intro p hp
    rcases h3 p hp with ⟨hs, _⟩ | ⟨f, rfl⟩
    · exact Or.inl hs
    · exact Or.inr (Or.inr ⟨f, rfl⟩)
  · have hm' : isfile s (pymavlinkPatchMarker td pxv) = false := by
      simpa using hm
    obtain ⟨s'', names, h1, h2, h3, _⟩ := build_pymavlink_rest_spec td pxv
      mdd bx ws s _ (pymavlink_patch_step_absent td pxv s hm')
    rw [h1] at h
    simp only [Except.ok.injEq] at h
    subst h
    intro p hp
    rcases h3 p hp with ⟨hs, _⟩ | ⟨f, rfl⟩
    · simp only [touch_file, addFile, emit, List.mem_cons] at hs
      rcases hs with rfl | hs
      · exact Or.inr (Or.inl rfl)
      · exact Or.inl hs
    · exact Or.inr (Or.inr ⟨f, rfl⟩)

/-- C7 amended: every file a successful `main` run creates is one of the
three markers `<workspace>/.px4-patched`, `<workspace>/.pymavlink-patched`
and `<workspace>/.mavlink-commited` (the source's spelling of the commit
marker), or lies inside the firmware checkout or the output directory. -/
theorem persisted_state_bounded (td : Path) (pxv : String)
    (lines : List String) (n : Nat) (bp bx bw : Bool) (ver : String)
    (tg : List String) (s s₁ : St)
    (hloc : localVersionOf lines = some pxv)
    (h : main td pxv allOk lines (n + 1) bp bx bw ver tg s =
      Except.ok s₁) :
    ∀ p, p ∈ s₁.fs.files → p ∈ s.fs.files ∨
      p = px4PatchMarker td pxv ∨ p = pymavlinkPatchMarker td pxv ∨
      p = mavlink_marker td pxv ∨
      (PX4_DIR td pxv).isPrefixOf p = true ∨
      (DIST_DIR td).isPrefixOf p = true := by
  unfold main at h
  simp only [bind, Except.bind] at h
  set s0 := makedirs (DIST_DIR td) s with hs0
  have f0 : s0.fs.files = s.fs.files := by
    simp [hs0, makedirs, addDir, emit]
  cases hA : clone_pymavlink td pxv allOk s0 with
  | error e => rw [hA] at h; cases h
  | ok sA =>
  rw [hA] at h
  dsimp only at h
  obtain ⟨fA, _⟩ := clone_pymavlink_quiet td pxv allOk s0 sA hA
  cases hB : clone_px4 td pxv allOk lines (n + 1) sA with
  | error e => rw [hB] at h; cases h
  | ok sB =>
  rw [hB] at h
  dsimp only at h
  obtain ⟨fB, _, _⟩ := clone_px4_quiet td pxv lines n sA sB hloc hB
  cases hC : install_dependencies td pxv allOk sB with
  | error e => rw [hC] at h; cases h
  | ok sC =>
  rw [hC] at h
  dsimp only at h
  obtain ⟨fC, _⟩ := install_dependencies_quiet td pxv allOk sB sC hC
  have memC : ∀ p, p ∈ sC.fs.files → p ∈ s.fs.files ∨
      p = px4PatchMarker td pxv := by
    intro p hp
    rw [fC] at hp
    rcases fB with fB | fB
    · rw [fB, fA, f0] at hp
      exact Or.inl hp
    · rw [fB] at hp
      rcases List.mem_cons.mp hp with rfl | hp
      · exact Or.inr rfl
      · rw [fA, f0] at hp
        exact Or.inl hp
  cases hD : mavlink_commit_step td pxv allOk sC with
  | error e => rw [hD] at h; cases h
  | ok sD =>
  rw [hD] at h
  dsimp only at h
  have memD : ∀ p, p ∈ sD.fs.files → p ∈ s.fs.files ∨
      p = px4PatchMarker td pxv ∨ p = mavlink_marker td pxv ∨
      (PX4_DIR td pxv).isPrefixOf p = true := by
    by_cases hm : isfile sC (mavlink_marker td pxv) = true
    · rw [mavlink_commit_step_present_run td pxv allOk sC hm] at hD
      simp only [Except.ok.injEq] at hD
      subst hD
      intro p hp
      rcases memC p hp with hp | rfl
      · exact Or.inl hp
      · exact Or.inr (Or.inl rfl)
    · have hm' : isfile sC (mavlink_marker td pxv) = false := by
        simpa using hm
      rw [mavlink_commit_step_absent_run td pxv sC hm'] at hD
      simp only [Except.ok.injEq] at hD
      subst hD
      intro p hp
      simp only [List.mem_cons] at hp
      rcases hp with rfl | rfl | hp
      · exact Or.inr (Or.inr (Or.inl rfl))
      · exact Or.inr (Or.inr (Or.inr (px4_prefix_bell td pxv)))
      · rcases memC p hp with hp | rfl
        · exact Or.inl hp
        · exact Or.inr (Or.inl rfl)
  have memE : ∀ sE : St, (∀ p, p ∈ sE.fs.files → p ∈ s.fs.files ∨
      p = px4PatchMarker td pxv ∨ p = pymavlinkPatchMarker td pxv ∨
      p = mavlink_marker td pxv ∨
      (PX4_DIR td pxv).isPrefixOf p = true ∨
      (DIST_DIR td).isPrefixOf p = true) →
      ∀ sF : St, (if bx = true then build_px4 td pxv allOk tg ver sE
        else pure sE) = Except.ok sF →
      ∀ p, p ∈ sF.fs.files → p ∈ s.fs.files ∨
        p = px4PatchMarker td pxv ∨ p = pymavlinkPatchMarker td pxv ∨
        p = mavlink_marker td pxv ∨
        (PX4_DIR td pxv).isPrefixOf p = true ∨
        (DIST_DIR td).isPrefixOf p = true := by
    intro sE hE sF hF p hp
    by_cases hbx : bx = true <;>
      simp only [hbx, if_true, Bool.false_eq_true, if_false, pure,
        Except.pure, Except.ok.injEq] at hF
    · obtain ⟨s'', h1, _, _, h4⟩ := build_px4_run td pxv ver tg sE
      rw [h1] at hF
      simp only [Except.ok.injEq] at hF
      subst hF
      rcases (h4 p).mp hp with hp | ⟨t, _, rfl⟩
      · exact hE p hp
      · exact Or.inr (Or.inr (Or.inr (Or.inr (Or.inr
          (dist_prefix_pjoin td _)))))
    · subst hF
      exact hE p hp
  by_cases hbp : bp = true <;>
    simp only [hbp, if_true, Bool.false_eq_true, if_false] at h
  · cases hE : build_pymavlink td pxv allOk
        (message_definitions_dir td pxv) (bell_xml_def td pxv) bw sD with
    | error e => rw [hE] at h; cases h
    | ok sE =>
    rw [hE] at h
    dsimp only at h
    refine memE sE ?_ s₁ h
    intro p hp
    rcases build_pymavlink_files td pxv _ _ bw sD sE hE p hp with
      hp | rfl | ⟨f, rfl⟩
    · rcases memD p hp with hp | rfl | rfl | hp
      · exact Or.inl hp
      · exact Or.inr (Or.inl rfl)
      · exact Or.inr (Or.inr (Or.inr (Or.inl rfl)))
      · exact Or.inr (Or.inr (Or.inr (Or.inr (Or.inl hp))))
    · exact Or.inr (Or.inr (Or.inl rfl))
    · exact Or.inr (Or.inr (Or.inr (Or.inr (Or.inr
        (dist_prefix_pjoin td f)))))
  · dsimp only [pure, Except.pure] at h
    refine memE sD ?_ s₁ h
    intro p hp
    rcases memD p hp with hp | rfl | rfl | hp
    · exact Or.inl hp
    · exact Or.inr (Or.inl rfl)
    · exact Or.inr (Or.inr (Or.inr (Or.inl rfl)))
    · exact Or.inr (Or.inr (Or.inr (Or.inr (Or.inl hp))))

/-- C3: the message-injection-and-commit step of `main` is idempotent
via its workspace marker.  A first successful run from a marker-absent
state copies `bell.xml` once, regenerates C bindings exactly when the
version is below the threshold, creates exactly one commit and leaves the
marker present; a second run for the same workspace adds no copy, no
regeneration and no commit. -/
theorem message_commit_idempotent (td : Path) (pxv : String)
    (lines : List String) (n : Nat) (bp bx bw bp' bx' bw' : Bool)
    (ver ver' : String) (tg tg' : List String) (s s₁ s₂ : St)
    (hloc : localVersionOf lines = some pxv)
    (h1 : main td pxv allOk lines (n + 1) bp bx bw ver tg s =
      Except.ok s₁)
    (h2 : main td pxv allOk lines (n + 1) bp' bx' bw' ver' tg' s₁ =
      Except.ok s₂) :
    mavlink_marker td pxv ∈ s₁.fs.files ∧
    s₁.trace.countP isGitCommit = s.trace.countP isGitCommit +
      (if isfile s (mavlink_marker td pxv) = true then 0 else 1) ∧
    s₁.trace.countP (isBellCopy td) = s.trace.countP (isBellCopy td) +
      (if isfile s (mavlink_marker td pxv) = true then 0 else 1) ∧
    s₁.trace.countP isMavgenC = s.trace.countP isMavgenC +
      (if isfile s (mavlink_marker td pxv) = true then 0
        else if verLt pxv "v1.13.0" = true then 1 else 0) ∧
    s₂.trace.countP isGitCommit = s₁.trace.countP isGitCommit ∧
    s₂.trace.countP (isBellCopy td) = s₁.trace.countP (isBellCopy td) ∧
    s₂.trace.countP isMavgenC = s₁.trace.countP isMavgenC := by
  obtain ⟨m1, a1, a2, a3⟩ := main_run_analysis td pxv lines n bp bx bw
    ver tg s s₁ hloc h1
  have hm1 : isfile s₁ (mavlink_marker td pxv) = true := by
    simp [isfile, m1]
  obtain ⟨m2, b1, b2, b3⟩ := main_run_analysis td pxv lines n bp' bx' bw'
    ver' tg' s₁ s₂ hloc h2
  refine ⟨m1, a1, a2, a3, ?_, ?_, ?_⟩
  · rw [b1, hm1]
    simp
  · rw [b2, hm1]
    simp
  · rw [b3, hm1]
    simp

/-- C7 counterexample: the commit marker the code writes is spelled
`.mavlink-commited` (build.py line 306), not `.mavlink-committed` as the
claim states; running the commit step on an empty workspace creates the
former and never the latter. -/
theorem commit_marker_name_cx :
    mavlink_marker ["T"] "v1.13.0" =
      ["T", "build", "v1.13.0", ".mavlink-commited"] ∧
    ¬(mavlink_marker ["T"] "v1.13.0" =
      ["T", "build", "v1.13.0", ".mavlink-committed"]) ∧
    (mavlink_commit_step ["T"] "v1.13.0" allOk ⟨⟨[], []⟩, []⟩).toOption.map
      (fun s => (decide (["T", "build", "v1.13.0",
          ".mavlink-commited"] ∈ s.fs.files),
        decide (["T", "build", "v1.13.0",
          ".mavlink-committed"] ∈ s.fs.files))) = some (true, false) := by
  refine ⟨rfl, by decide, by decide⟩

/-- Witness for C1 at a concrete checkout recording `v1.11.0`. -/
theorem mismatch_destroys_workspace_w :
    isdir w1St (PX4_DIR ["T"] "v1.12.0") = true ∧
    localVersionOf w1lines = some "v1.11.0" ∧
    clone_px4 ["T"] "v1.12.0" allOk w1lines 2 w1St = Except.ok w1Res :=
  ⟨by decide, by decide,
    (mismatch_destroys_workspace ["T"] "v1.12.0" "v1.11.0" w1lines 0 w1St
      (by decide) (by decide)).1 (by decide)⟩

/-- Witness for C2 at a concrete marker-present state. -/
theorem patch_apply_idempotent_w :
    isfile w2St (px4PatchMarker ["T"] "v1") = true ∧
    px4_patch_step ["T"] "v1" allOk w2St = Except.ok w2St :=
  ⟨by decide, (patch_apply_idempotent ["T"] "v1" w2St).1 (by decide)⟩

/-- Witness for C3: two concrete `main` runs from an empty state. -/
theorem message_commit_idempotent_w :
    localVersionOf w3lines = some "v1.13.0" ∧
    (mavlink_marker ["T"] "v1.13.0" ∈ w3s1.fs.files ∧
      w3s1.trace.countP isGitCommit = wEmpty.trace.countP isGitCommit +
        (if isfile wEmpty (mavlink_marker ["T"] "v1.13.0") = true then 0
          else 1) ∧
      w3s1.trace.countP (isBellCopy ["T"]) =
        wEmpty.trace.countP (isBellCopy ["T"]) +
        (if isfile wEmpty (mavlink_marker ["T"] "v1.13.0") = true then 0
          else 1) ∧
      w3s1.trace.countP isMavgenC = wEmpty.trace.countP isMavgenC +
        (if isfile wEmpty (mavlink_marker ["T"] "v1.13.0") = true then 0
          else if verLt "v1.13.0" "v1.13.0" = true then 1 else 0) ∧
      w3s2.trace.countP isGitCommit = w3s1.trace.countP isGitCommit ∧
      w3s2.trace.countP (isBellCopy ["T"]) =
        w3s1.trace.countP (isBellCopy ["T"]) ∧
      w3s2.trace.countP isMavgenC = w3s1.trace.countP isMavgenC) :=
  ⟨by decide,
    message_commit_idempotent ["T"] "v1.13.0" w3lines 0 false false false
      false false false "x" "x" [] [] wEmpty w3s1 w3s2 (by decide)
      (by decide) (by decide)⟩

/-- Witness for C4 at the below-threshold version `v1.12.0`. -/
theorem layout_and_sync_threshold_w :
    verLt "v1.12.0" "v1.13.0" = true ∧
    (PYMAVLINK_DIR ["T"] "v1.12.0" =
      pjoin (BUILD_DIR ["T"] "v1.12.0") "pymavlink" ∧
    clone_pymavlink ["T"] "v1.12.0" allOk wEmpty =
      (if isdir wEmpty (PYMAVLINK_DIR ["T"] "v1.12.0") then
        Except.ok (emit wEmpty (.call [.s "git", .s "pull"]
          (some (PYMAVLINK_DIR ["T"] "v1.12.0"))))
      else
        Except.ok (addDir (PYMAVLINK_DIR ["T"] "v1.12.0")
          (emit wEmpty (.call [.s "git", .s "clone",
            .s "https://github.com/ardupilot/pymavlink",
            .p (PYMAVLINK_DIR ["T"] "v1.12.0")] none))))) :=
  ⟨by decide, (layout_and_sync_threshold ["T"] "v1.12.0" wEmpty).1
    (by decide)⟩

/-- Witness for C5: a failing oracle leaves the marker absent. -/
theorem marker_only_after_success_w :
    isfile wEmpty (px4PatchMarker ["T"] "v1") = false ∧
    px4_patch_step ["T"] "v1" okFail wEmpty = Except.error w5err ∧
    isfile w5err (px4PatchMarker ["T"] "v1") = false :=
  ⟨by decide, by decide,
    ((marker_only_after_success ["T"] "v1" okFail wEmpty).1
      (by decide)).1 w5err (by decide)⟩

/-- Witness for C6 at a concrete existing checkout. -/
theorem pymavlink_update_in_place_w :
    verLt "v1.12.0" "v1.13.0" = true ∧
    isdir w6St (PYMAVLINK_DIR ["T"] "v1.12.0") = true ∧
    (clone_pymavlink ["T"] "v1.12.0" allOk w6St =
      Except.ok (emit w6St (pullEvent ["T"] "v1.12.0")) ∧
    (emit w6St (pullEvent ["T"] "v1.12.0")).fs = w6St.fs ∧
    [pullEvent ["T"] "v1.12.0"].countP isRm = 0 ∧
    [pullEvent ["T"] "v1.12.0"].countP isGitClone = 0 ∧
    [pullEvent ["T"] "v1.12.0"].countP isRemoteQuery = 0) :=
  ⟨by decide, by decide,
    pymavlink_update_in_place ["T"] "v1.12.0" w6St (by decide)
      (by decide)⟩

/-- Witness for C7 at a concrete `main` run and the commit marker. -/
theorem persisted_state_bounded_w :
    localVersionOf w3lines = some "v1.13.0" ∧
    (mavlink_marker ["T"] "v1.13.0" ∈ wEmpty.fs.files ∨
      mavlink_marker ["T"] "v1.13.0" = px4PatchMarker ["T"] "v1.13.0" ∨
      mavlink_marker ["T"] "v1.13.0" =
        pymavlinkPatchMarker ["T"] "v1.13.0" ∨
      mavlink_marker ["T"] "v1.13.0" = mavlink_marker ["T"] "v1.13.0" ∨
      (PX4_DIR ["T"] "v1.13.0").isPrefixOf
        (mavlink_marker ["T"] "v1.13.0") = true ∨
      (DIST_DIR ["T"]).isPrefixOf (mavlink_marker ["T"] "v1.13.0") =
        true) :=
  ⟨by decide,
    persisted_state_bounded ["T"] "v1.13.0" w3lines 0 false false false
      "x" [] wEmpty w3s1 (by decide) (by decide)
      (mavlink_marker ["T"] "v1.13.0") (by decide)⟩

/-- Witness for C9 at remote-show output without a refs line. -/
theorem local_version_probe_w :
    isdir w1St (PX4_DIR ["T"] "v1.12.0") = true ∧
    localVersionOf w9lines = none ∧
    (localVersionOf w9lines =
      (w9lines.find? refsLine).map lastComponent ∧
    clone_px4 ["T"] "v1.12.0" allOk w9lines 1 w1St =
      Except.error (emit w1St (remoteQueryEvent ["T"] "v1.12.0"))) :=
  ⟨by decide, by decide,
    local_version_probe ["T"] "v1.12.0" w9lines 0 w1St (by decide)
      (by decide)⟩

/-- Witness for C8: a concrete two-target build. -/
theorem build_px4_artifacts_w :
    build_px4 ["T"] "v1" allOk ["a", "b"] "x" wEmpty = Except.ok w8s ∧
    artifactDst ["T"] "v1" "x" "a" ∈ w8s.fs.files ∧
    artifactDst ["T"] "v1" "x" "b" ∈ w8s.fs.files := by
  obtain ⟨s', h1, h2, h3, h4⟩ := build_px4_artifacts ["T"] "v1" "x"
    ["a", "b"] wEmpty
  have hw : s' = w8s := by
    have h1' : build_px4 ["T"] "v1" allOk ["a", "b"] "x" wEmpty =
        Except.ok w8s := by decide
    have := h1.symm.trans h1'
    simpa using this
  subst hw
  exact ⟨h1, h4 "a" (by simp), h4 "b" (by simp)⟩

/-- Witness for C10: a stale definition file does not survive. -/
theorem message_defs_refreshed_every_run_w :
    build_pymavlink ["T"] "v1" allOk ["M"] ["B"] false w10St =
      Except.ok w10s ∧
    w10file ∈ w10St.fs.files ∧
    (v10dir ["T"] "v1").isPrefixOf w10file = true ∧
    w10file ∉ w10s.fs.files := by
  obtain ⟨s', names, h1, h2, h3⟩ := message_defs_refreshed_every_run
    ["T"] "v1" ["M"] ["B"] false w10St
  have hw : s' = w10s := by
    have h1' : build_pymavlink ["T"] "v1" allOk ["M"] ["B"] false w10St =
        Except.ok w10s := by decide
    have := h1.symm.trans h1'
    simpa using this
  subst hw
  exact ⟨h1, by decide, by decide, h3 w10file (by decide) (by decide)⟩

end AVRBuild
